import Mathlib

/-!
Verification of the project-evaluation engine
(`api/project_eval/evaluators.py`, `api/project_eval/prompts.py`).

The Python values flowing through the engine (JSON-like corpora, LLM
replies, prompt variables) are shallowly embedded as the inductive type
`PyVal`.  Numbers (Python `int`/`float`) are modelled as rationals;
dictionaries as association lists in insertion order (Python dicts
preserve insertion order and cannot hold duplicate keys, so lookups read
the first match and assignment overwrites in place).  Fallible Python
code (raising) is modelled with `Except String`; the error strings are
abbreviations of the Python exception texts, not verbatim copies.
-/

namespace ProjectEval

/-- Embedded Python value: None, bool, int/float (merged as `ℚ`), str,
bytes (list of byte values), list, dict (association list in insertion
order). -/
inductive PyVal where
  | vNone : PyVal
  | vBool (b : Bool) : PyVal
  | vNum (q : ℚ) : PyVal
  | vStr (s : String) : PyVal
  | vBytes (bs : List Nat) : PyVal
  | vList (xs : List PyVal) : PyVal
  | vDict (kvs : List (PyVal × PyVal)) : PyVal

mutual

/-- Structural equality on embedded values, used for dict-key matching.
Python compares keys with `==`; all keys arising in this code base are
strings or scalars, where `==` coincides with structural equality
(containers are unhashable in Python and cannot be dict keys). -/
def pyBeq : PyVal → PyVal → Bool
  | .vNone, .vNone => true
  | .vBool a, .vBool b => a == b
  | .vNum a, .vNum b => a == b
  | .vStr a, .vStr b => a == b
  | .vBytes a, .vBytes b => a == b
  | .vList a, .vList b => pyBeqList a b
  | .vDict a, .vDict b => pyBeqKVs a b
  | _, _ => false
termination_by structural v => v

/-- Elementwise equality of embedded lists. -/
def pyBeqList : List PyVal → List PyVal → Bool
  | [], [] => true
  | a :: as, b :: bs => pyBeq a b && pyBeqList as bs
  | _, _ => false
termination_by structural l => l

/-- Pairwise equality of embedded dict entries. -/
def pyBeqKVs : List (PyVal × PyVal) → List (PyVal × PyVal) → Bool
  | [], [] => true
  | (k1, v1) :: as, (k2, v2) :: bs => pyBeq k1 k2 && pyBeq v1 v2 && pyBeqKVs as bs
  | _, _ => false
termination_by structural l => l

end

mutual

/-- Python `repr()` of an embedded value (the form used for container
elements by `str()`).  Numeric repr is a simplification: integers print
exactly, non-integers print as `num/den` rather than Python float
notation — no theorem below depends on the printed form of a number. -/
def pyRepr : PyVal → String
  | .vNone => "None"
  | .vBool b => if b then "True" else "False"
  | .vNum q => if q.den = 1 then toString q.num else toString q.num ++ "/" ++ toString q.den
  | .vStr s => "\x27" ++ s ++ "\x27"
  | .vBytes bs => "b\x27" ++ String.mk (bs.map Char.ofNat) ++ "\x27"
  | .vList xs => "[" ++ pyReprList xs ++ "]"
  | .vDict kvs => "\x7b" ++ pyReprKVs kvs ++ "\x7d"
termination_by structural v => v

/-- Comma-separated reprs of a list's elements. -/
def pyReprList : List PyVal → String
  | [] => ""
  | [x] => pyRepr x
  | x :: y :: xs => pyRepr x ++ ", " ++ pyReprList (y :: xs)
termination_by structural l => l

/-- Comma-separated `key: value` reprs of a dict's entries. -/
def pyReprKVs : List (PyVal × PyVal) → String
  | [] => ""
  | [(k, v)] => pyRepr k ++ ": " ++ pyRepr v
  | (k, v) :: e :: kvs => pyRepr k ++ ": " ++ pyRepr v ++ ", " ++ pyReprKVs (e :: kvs)
termination_by structural l => l

end

/-- Python `str()` of an embedded value: identity on strings, `repr`
otherwise. -/
def pyStr : PyVal → String
  | .vStr s => s
  | v => pyRepr v

/-- Python truthiness of an embedded value. -/
def pyBool : PyVal → Bool
  | .vNone => false
  | .vBool b => b
  | .vNum q => q != 0
  | .vStr s => s != ""
  | .vBytes bs => !bs.isEmpty
  | .vList xs => !xs.isEmpty
  | .vDict kvs => !kvs.isEmpty

/-- Python `a or b`. -/
def pyOr (a b : PyVal) : PyVal := if pyBool a then a else b

/-- Python `v is None`. -/
def PyVal.isNone : PyVal → Bool
  | .vNone => true
  | _ => false

/-- First value stored under a key equal (`pyBeq`) to `k`. -/
def pyLookup (kvs : List (PyVal × PyVal)) (k : PyVal) : Option PyVal :=
  match kvs with
  | [] => none
  | (k1, v1) :: rest => if pyBeq k1 k then some v1 else pyLookup rest k

/-- Python dict assignment `d[k] = v`: overwrite in place if the key is
present, else append. -/
def dictSet (kvs : List (PyVal × PyVal)) (k v : PyVal) : List (PyVal × PyVal) :=
  match kvs with
  | [] => [(k, v)]
  | (k1, v1) :: rest => if pyBeq k1 k then (k1, v) :: rest else (k1, v1) :: dictSet rest k v

/-- Python `d.get(k)` (default `None`); raises `AttributeError` when the
receiver is not a dict. -/
def pyGet (v k : PyVal) : Except String PyVal :=
  match v with
  | .vDict kvs => .ok ((pyLookup kvs k).getD .vNone)
  | _ => .error "AttributeError: get on non-dict"

/-- Python `d.get(k, dflt)`; raises `AttributeError` when the receiver is
not a dict. -/
def pyGetD (v k d : PyVal) : Except String PyVal :=
  match v with
  | .vDict kvs => .ok ((pyLookup kvs k).getD d)
  | _ => .error "AttributeError: get on non-dict"

/-- Lookup in a string-keyed association list (first match). -/
def sGet (l : List (String × PyVal)) (k : String) : Option PyVal :=
  match l with
  | [] => none
  | (k1, v1) :: rest => if k1 == k then some v1 else sGet rest k

/-- Assignment in a string-keyed association list (overwrite in place,
else append) — dict-comprehension semantics for duplicate keys. -/
def sSet (l : List (String × PyVal)) (k : String) (v : PyVal) : List (String × PyVal) :=
  match l with
  | [] => [(k, v)]
  | (k1, v1) :: rest => if k1 == k then (k1, v) :: rest else (k1, v1) :: sSet rest k v

/-- Characters stripped by Python `str.strip()` with no arguments. -/
def pyWsChar (c : Char) : Bool :=
  c = ' ' || c = '\t' || c = '\n' || c = '\x0d' || c = '\x0b' || c = '\x0c'

/-- Strip characters satisfying `p` from both ends of a character list. -/
def stripEnds (p : Char → Bool) (l : List Char) : List Char :=
  (l.dropWhile p).rdropWhile p

/-- Python `s.strip()`. -/
def pyStrip (s : String) : String := String.mk (stripEnds pyWsChar s.data)

/-- Characters stripped from field names by the normalizer:
`.strip(" '\"")`. -/
def keyJunkChar (c : Char) : Bool :=
  c = ' ' || c = '\x27' || c = '"'

/-- Python `s.strip(" '\"")`. -/
def stripKeyJunk (s : String) : String := String.mk (stripEnds keyJunkChar s.data)

/-- Python slice `s[:n]` (by code point). -/
def pySlice (n : Nat) (s : String) : String := String.mk (s.data.take n)

/-- Python `" ".join(parts)`. -/
def joinSp : List String → String
  | [] => ""
  | [x] => x
  | x :: y :: rest => x ++ " " ++ joinSp (y :: rest)

/-- Value of a list of decimal digit characters. -/
def digitsVal (l : List Char) : Nat :=
  l.foldl (fun acc c => acc * 10 + (c.toNat - 48)) 0

/-- Parse the text accepted by Python `float()` on this code's inputs:
optional surrounding whitespace, optional sign, then a decimal number
`digits [. digits] [e|E [sign] digits]` with at least one digit in the
mantissa.  The special names `inf`/`nan` are not modelled: they are
rejected here, while Python would produce a value outside `[1.0, 5.0]`
— every use site below treats the two outcomes identically. -/
def parseFloatChars (cs0 : List Char) : Option ℚ :=
  let cs := stripEnds pyWsChar cs0
  let (sgn, cs) : ℚ × List Char :=
    match cs with
    | '-' :: rest => (-1, rest)
    | '+' :: rest => (1, rest)
    | _ => (1, cs)
  let intPart := cs.takeWhile Char.isDigit
  let cs := cs.dropWhile Char.isDigit
  let (fracPart, cs) : List Char × List Char :=
    match cs with
    | '.' :: rest => (rest.takeWhile Char.isDigit, rest.dropWhile Char.isDigit)
    | _ => ([], cs)
  if intPart.isEmpty && fracPart.isEmpty then none
  else
    let mant : ℚ := sgn * ((digitsVal intPart : ℚ) + (digitsVal fracPart : ℚ) / ((10 : ℚ) ^ fracPart.length))
    match cs with
    | [] => some mant
    | e :: rest =>
      if e = 'e' ∨ e = 'E' then
        let (esgn, rest) : Bool × List Char :=
          match rest with
          | '-' :: r => (true, r)
          | '+' :: r => (false, r)
          | _ => (false, rest)
        let eDigits := rest.takeWhile Char.isDigit
        let rest := rest.dropWhile Char.isDigit
        if eDigits.isEmpty ∨ !rest.isEmpty then none
        else some (if esgn then mant / (10 : ℚ) ^ digitsVal eDigits else mant * (10 : ℚ) ^ digitsVal eDigits)
      else none

/-- Python `float(value)` as used by the engine: succeeds on bools,
numbers, and numeric text (str or bytes); fails (raises in Python) on
None, lists and dicts. -/
def pyFloat : PyVal → Option ℚ
  | .vBool b => some (if b then 1 else 0)
  | .vNum q => some q
  | .vStr s => parseFloatChars s.data
  | .vBytes bs => parseFloatChars (bs.map Char.ofNat)
  | _ => none

/-- JSON whitespace. -/
def jWsChar (c : Char) : Bool :=
  c = ' ' || c = '\t' || c = '\n' || c = '\x0d'

/-- Hex digit predicate. -/
def isHexChar (c : Char) : Bool :=
  c.isDigit || ('a' ≤ c && c ≤ 'f') || ('A' ≤ c && c ≤ 'F')

/-- Hex digit value. -/
def hexVal (c : Char) : Nat :=
  if c.isDigit then c.toNat - 48
  else if 'a' ≤ c && c ≤ 'f' then c.toNat - 87
  else c.toNat - 55

/-- Python dict built from key/value pairs in order (later duplicates
overwrite, first position kept). -/
def pyDictOfPairs (pairs : List (PyVal × PyVal)) : List (PyVal × PyVal) :=
  pairs.foldl (fun d kv => dictSet d kv.1 kv.2) []

/-- Parse a JSON string body after the opening quote; returns the decoded
characters and the remaining input. -/
def jStrChars : List Char → Option (List Char × List Char)
  | [] => none
  | '"' :: rest => some ([], rest)
  | '\\' :: e :: rest =>
    if e = 'u' then
      match rest with
      | h1 :: h2 :: h3 :: h4 :: rest2 =>
        if isHexChar h1 && isHexChar h2 && isHexChar h3 && isHexChar h4 then
          match jStrChars rest2 with
          | some (l, rem) =>
            some (Char.ofNat (4096 * hexVal h1 + 256 * hexVal h2 + 16 * hexVal h3 + hexVal h4) :: l, rem)
          | none => none
        else none
      | _ => none
    else
      let c? : Option Char :=
        if e = '"' then some '"'
        else if e = '\\' then some '\\'
        else if e = '/' then some '/'
        else if e = 'b' then some '\x08'
        else if e = 'f' then some '\x0c'
        else if e = 'n' then some '\n'
        else if e = 'r' then some '\x0d'
        else if e = 't' then some '\t'
        else none
      match c? with
      | none => none
      | some c =>
        match jStrChars rest with
        | some (l, rem) => some (c :: l, rem)
        | none => none
  | c :: rest =>
    if c.toNat < 32 then none
    else
      match jStrChars rest with
      | some (l, rem) => some (c :: l, rem)
      | none => none

/-- Parse a JSON number (strict grammar: optional minus, `0` or nonzero
leading digit, optional fraction and exponent). -/
def jNum (cs : List Char) : Option (ℚ × List Char) :=
  let (neg, cs1) : Bool × List Char :=
    match cs with
    | '-' :: rest => (true, rest)
    | _ => (false, cs)
  let intPart := cs1.takeWhile Char.isDigit
  let cs2 := cs1.dropWhile Char.isDigit
  if intPart.isEmpty then none
  else if intPart.length > 1 ∧ intPart.headD '0' = '0' then none
  else
    let (fracPart, cs3) : List Char × List Char :=
      match cs2 with
      | '.' :: rest =>
        let f := rest.takeWhile Char.isDigit
        (f, rest.dropWhile Char.isDigit)
      | _ => ([], cs2)
    if (match cs2 with | '.' :: _ => fracPart.isEmpty | _ => false) then none
    else
      let mant : ℚ := (digitsVal intPart : ℚ) + (digitsVal fracPart : ℚ) / ((10 : ℚ) ^ fracPart.length)
      let mant := if neg then -mant else mant
      match cs3 with
      | e :: rest =>
        if e = 'e' ∨ e = 'E' then
          let (esgn, rest2) : Bool × List Char :=
            match rest with
            | '-' :: r => (true, r)
            | '+' :: r => (false, r)
            | _ => (false, rest)
          let eDigits := rest2.takeWhile Char.isDigit
          let rest3 := rest2.dropWhile Char.isDigit
          if eDigits.isEmpty then none
          else some ((if esgn then mant / (10 : ℚ) ^ digitsVal eDigits else mant * (10 : ℚ) ^ digitsVal eDigits), rest3)
        else some (mant, cs3)
      | [] => some (mant, [])

/-- Check that `cs` starts with `pre`, returning the remainder. -/
def chopLit : List Char → List Char → Option (List Char)
  | [], cs => some cs
  | p :: ps, c :: cs => if p = c then chopLit ps cs else none
  | _ :: _, [] => none

mutual

/-- Parse one JSON value (after skipping leading whitespace), fuel-bounded.
Mirrors Python `json.loads` on the engine's inputs. -/
def jVal : Nat → List Char → Option (PyVal × List Char)
  | 0, _ => none
  | fuel + 1, cs0 =>
    match (cs0.dropWhile jWsChar : List Char) with
    | [] => none
    | c :: cs =>
      if c = '"' then
        match jStrChars cs with
        | some (l, rem) => some (.vStr (String.mk l), rem)
        | none => none
      else if c = '[' then
        match (cs.dropWhile jWsChar : List Char) with
        | ']' :: rem => some (.vList [], rem)
        | _ =>
          match jArr fuel cs with
          | some (xs, rem) => some (.vList xs, rem)
          | none => none
      else if c = '\x7b' then
        match (cs.dropWhile jWsChar : List Char) with
        | '\x7d' :: rem => some (.vDict [], rem)
        | _ =>
          match jObj fuel cs with
          | some (kvs, rem) => some (.vDict (pyDictOfPairs kvs), rem)
          | none => none
      else if c = 't' then
        match chopLit ['r', 'u', 'e'] cs with
        | some rem => some (.vBool true, rem)
        | none => none
      else if c = 'f' then
        match chopLit ['a', 'l', 's', 'e'] cs with
        | some rem => some (.vBool false, rem)
        | none => none
      else if c = 'n' then
        match chopLit ['u', 'l', 'l'] cs with
        | some rem => some (.vNone, rem)
        | none => none
      else
        match jNum (c :: cs) with
        | some (q, rem) => some (.vNum q, rem)
        | none => none
termination_by structural fuel => fuel

/-- Parse the items of a non-empty JSON array (after `[`). -/
def jArr : Nat → List Char → Option (List PyVal × List Char)
  | 0, _ => none
  | fuel + 1, cs =>
    match jVal fuel cs with
    | none => none
    | some (v, rem) =>
      match (rem.dropWhile jWsChar : List Char) with
      | ',' :: rem2 =>
        match jArr fuel rem2 with
        | some (xs, rem3) => some (v :: xs, rem3)
        | none => none
      | ']' :: rem2 => some ([v], rem2)
      | _ => none
termination_by structural fuel => fuel

/-- Parse the members of a non-empty JSON object (after the opening
brace) as raw key/value pairs in textual order; the caller builds the
dict (so duplicate keys overwrite like Python dicts). -/
def jObj : Nat → List Char → Option (List (PyVal × PyVal) × List Char)
  | 0, _ => none
  | fuel + 1, cs =>
    match (cs.dropWhile jWsChar : List Char) with
    | '"' :: cs2 =>
      match jStrChars cs2 with
      | none => none
      | some (k, rem) =>
        match (rem.dropWhile jWsChar : List Char) with
        | ':' :: rem2 =>
          match jVal fuel rem2 with
          | none => none
          | some (v, rem3) =>
            match (rem3.dropWhile jWsChar : List Char) with
            | ',' :: rem4 =>
              match jObj fuel rem4 with
              | some (kvs, rem5) => some ((.vStr (String.mk k), v) :: kvs, rem5)
              | none => none
            | '\x7d' :: rem4 => some ([(.vStr (String.mk k), v)], rem4)
            | _ => none
        | _ => none
    | _ => none
termination_by structural fuel => fuel

end

/-- Python `json.loads`: parse a complete JSON document with nothing but
whitespace after it. -/
def jsonParse (s : String) : Option PyVal :=
  match jVal (2 * s.length + 4) s.data with
  | some (v, rem) => if (rem.dropWhile jWsChar).isEmpty then some v else none
  | none => none

/-- UTF-8 continuation byte. -/
def contByte (b : Nat) : Bool := 128 ≤ b && b ≤ 191

/-- Python `bytes.decode("utf-8", errors="ignore")`: decode UTF-8,
skipping undecodable bytes (overlong encodings, surrogates and
out-of-range code points are rejected and skipped).
Fuel-bounded (each step consumes at least one byte, so fuel equal to the
byte count is exact). -/
def utf8Go : Nat → List Nat → List Char
  | 0, _ => []
  | _, [] => []
  | fuel + 1, b1 :: rest =>
    if b1 < 128 then Char.ofNat b1 :: utf8Go fuel rest
    else if 194 ≤ b1 && b1 ≤ 223 then
      match rest with
      | b2 :: rest2 =>
        if contByte b2 then Char.ofNat ((b1 - 192) * 64 + (b2 - 128)) :: utf8Go fuel rest2
        else utf8Go fuel (b2 :: rest2)
      | [] => []
    else if 224 ≤ b1 && b1 ≤ 239 then
      match rest with
      | b2 :: b3 :: rest2 =>
        let cp := (b1 - 224) * 4096 + (b2 - 128) * 64 + (b3 - 128)
        if contByte b2 && contByte b3 && decide (2048 ≤ cp) && !(55296 ≤ cp && cp ≤ 57343) then
          Char.ofNat cp :: utf8Go fuel rest2
        else utf8Go fuel (b2 :: b3 :: rest2)
      | l => utf8Go fuel l
    else if 240 ≤ b1 && b1 ≤ 244 then
      match rest with
      | b2 :: b3 :: b4 :: rest2 =>
        let cp := (b1 - 240) * 262144 + (b2 - 128) * 4096 + (b3 - 128) * 64 + (b4 - 128)
        if contByte b2 && contByte b3 && contByte b4 && decide (65536 ≤ cp) && decide (cp ≤ 1114111) then
          Char.ofNat cp :: utf8Go fuel rest2
        else utf8Go fuel (b2 :: b3 :: b4 :: rest2)
      | l => utf8Go fuel l
    else utf8Go fuel rest
termination_by structural fuel => fuel

/-- `bytes.decode("utf-8", errors="ignore")` producing a string. -/
def utf8DecodeIgnore (bs : List Nat) : String := String.mk (utf8Go bs.length bs)

/-- Rounding to 2 decimal places, as `float(f"{x:.2f}")` does.  Ties are
modelled as round-half-up; Python rounds the underlying binary double
half-to-even, which agrees on every value arising in the claims (no
score computed by the engine lands exactly on a half-hundredth). -/
def round2 (q : ℚ) : ℚ := ((Rat.floor (q * 100 + 1/2) : ℤ) : ℚ) / 100

/-- `_coerce_score` (evaluators.py:13): coerce to float, keep values in
`[1.0, 5.0]` rounded to 2 decimals, default anything else to 3.0. -/
def _coerce_score (value : PyVal) : ℚ :=
  match pyFloat value with
  | some f => if 1 ≤ f ∧ f ≤ 5 then round2 f else 3
  | none => 3

/-- `_band` (evaluators.py:23): map an overall score to its band. -/
def _band (score : ℚ) : String :=
  if score < 5/2 then "low"
  else if score < 367/100 then "mid"
  else "high"

/-- The normalized `{score_1_to_5, reason}` record returned by
`_normalize_llm_response`. -/
def mkResult (s : ℚ) (r : String) : PyVal :=
  .vDict [(.vStr "score_1_to_5", .vNum s), (.vStr "reason", .vStr r)]

/-- Field names trimmed of surrounding quotes/spaces:
`{str(k).strip(" '\""): v for k, v in resp.items()}`. -/
def cleanKeys (kvs : List (PyVal × PyVal)) : List (String × PyVal) :=
  (kvs.map (fun kv => (stripKeyJunk (pyStr kv.1), kv.2))).foldl
    (fun d kv => sSet d kv.1 kv.2) []

/-- The list-unwrapping step at evaluators.py:62-64: a non-empty list
whose first element is a dict is replaced by that first element. -/
def unwrapFirst (resp0 : PyVal) : PyVal :=
  match resp0 with
  | .vList (first :: rest) =>
    match first with
    | .vDict _ => first
    | _ => .vList (first :: rest)
  | r => r

/-- The structured tail of `_normalize_llm_response` (evaluators.py:62-77),
applied once the reply is no longer text: unwrap a list whose first
element is a dict, reject non-dicts, clean field names, coerce the score
into `[1.0, 5.0]` (default 3.0) and default a missing or blank reason. -/
def normalizeStructured (resp0 : PyVal) : PyVal :=
  match unwrapFirst resp0 with
  | .vDict kvs =>
    let cleaned := cleanKeys kvs
    let score : ℚ :=
      match pyFloat ((sGet cleaned "score_1_to_5").getD (PyVal.vNum 3)) with
      | some f => if 1 ≤ f ∧ f ≤ 5 then f else 3
      | none => 3
    let reason : String :=
      match sGet cleaned "reason" with
      | some (.vStr r) => if pyStrip r = "" then "No reason; defaulted." else r
      | _ => "No reason; defaulted."
    mkResult (round2 score) (pyStrip reason)
  | _ => mkResult 3 "Non-dict LLM output; defaulted."

/-- `_normalize_llm_response` (evaluators.py:44): decode bytes, parse
text as JSON (defaulting when unparseable), then normalize the
structured value. -/
def _normalize_llm_response (resp0 : PyVal) : PyVal :=
  let resp1 : PyVal :=
    match resp0 with
    | .vBytes bs => .vStr (utf8DecodeIgnore bs)
    | r => r
  match resp1 with
  | .vStr s =>
    match jsonParse s with
    | none => mkResult 3 "Unparseable LLM output; defaulted."
    | some v => normalizeStructured v
  | r => normalizeStructured r

/-- The score a reply validly carries, mirroring the normalizer's
extraction pipeline: after decoding/parsing/unwrapping, the cleaned
record's `score_1_to_5` field coerced to a number in `[1.0, 5.0]`
(`none` when the reply is malformed in any of the ways the spec lists).
Defined independently of `_normalize_llm_response` so that the
default-to-3.0 contract can be stated against it. -/
def extractScoreStruct (r0 : PyVal) : Option ℚ :=
  match unwrapFirst r0 with
  | .vDict kvs =>
    match pyFloat ((sGet (cleanKeys kvs) "score_1_to_5").getD (PyVal.vNum 3)) with
    | some f => if 1 ≤ f ∧ f ≤ 5 then some f else none
    | none => none
  | _ => none

/-- The full valid-score extraction: decode bytes, parse text, then
extract structurally — `none` exactly when the normalizer would default
the score. -/
def extractScore (resp0 : PyVal) : Option ℚ :=
  let resp1 : PyVal :=
    match resp0 with
    | .vBytes bs => .vStr (utf8DecodeIgnore bs)
    | r => r
  match resp1 with
  | .vStr s =>
    match jsonParse s with
    | none => none
    | some v => extractScoreStruct v
  | r => extractScoreStruct r

/-- One piece of a prompt template: literal text or a named placeholder.
Python's `str.format` templates are embedded pre-split into parts, with
`{{`/`}}` escapes already folded into the literals. -/
inductive TPart where
  | lit (s : String)
  | hole (k : String)

/-- Render template parts against variables, as `template.format(**vars)`
does: substitute `str(value)` for each placeholder, raising `KeyError`
at the first placeholder missing from the variables. -/
def renderParts (vars : List (String × PyVal)) : List TPart → Except String String
  | [] => .ok ""
  | .lit s :: rest => (renderParts vars rest).map (fun t => s ++ t)
  | .hole k :: rest =>
    match sGet vars k with
    | some v => (renderParts vars rest).map (fun t => pyStr v ++ t)
    | none => .error ("KeyError: " ++ k)

/-- `SubmetricPrompt` (prompts.py:8): immutable prompt definition. -/
structure SubmetricPrompt where
  key : String
  name : String
  description : String
  template : List TPart

/-- `SubmetricPrompt.render` (prompts.py:22):
`template.format(project_text=project_text, **kwargs)`. -/
def SubmetricPrompt.render (p : SubmetricPrompt) (project_text : String)
    (kwargs : List (String × PyVal)) : Except String String :=
  renderParts (("project_text", .vStr project_text) :: kwargs) p.template

/-- `SUBMETRIC_PROMPTS` (prompts.py:34-187): the fixed catalog keyed by
`(metric, submetric label)`, in declaration order. -/
def SUBMETRIC_PROMPTS : List ((String × String) × SubmetricPrompt) := [
  (("business_impact", "Strategic Fit"),
    { key := "strategic_fit", name := "Strategic Fit",
      description := "Alignment to strategy and core objectives.",
      template := [
        .lit "Proje:\n", .hole "project_text",
        .lit "\n\nYukarıdaki projenin Stratejik Uyumunu (1–5) değerlendirin. Dikkate alın:\n- Şirket stratejisi ve temel hedeflerle uyum\n**Geçmiş Proje Örneği:**\nProje: ",
        .hole "past_project_name",
        .lit "\nŞirket: ", .hole "past_project_company",
        .lit "\nKapsam ve Hedefler: ", .hole "past_project_scope_and_objectives",
        .lit "\n**Geçmiş Değerlendirme (Stratejik Uyum):** ", .hole "past_metric_evaluation",
        .lit "\nPuan: ", .hole "past_metric_score",
        .lit "\nSadece JSON döndürün: \x7b\"score_1_to_5\": float, \"reason\": str\x7d"] }),
  (("business_impact", "Business Value Contribution"),
    { key := "business_value", name := "Business Value Contribution",
      description := "Expected measurable benefits and stakeholder impact.",
      template := [
        .lit "Proje:\n", .hole "project_text",
        .lit "\n\nYukarıdaki projenin İş Değeri Katkısını (1–5) değerlendirin. Dikkate alın:\n- Beklenen ölçülebilir faydalar\n- Paydaş etkisi ve sonuçları\n**Geçmiş Proje Örneği:**\nProje: ",
        .hole "past_project_name",
        .lit "\nİş Değeri Katkısı: ", .hole "past_project_business_value_contribution",
        .lit "\n**Geçmiş Değerlendirme (İş Değeri Katkısı):** ", .hole "past_metric_evaluation",
        .lit "\nPuan: ", .hole "past_metric_score",
        .lit "\nSadece JSON döndürün: \x7b\"score_1_to_5\": float, \"reason\": str\x7d"] }),
  (("business_impact", "Scalability & Replicability Potential"),
    { key := "scalability", name := "Scalability",
      description := "Ease of replication and scale.",
      template := [
        .lit "Proje:\n", .hole "project_text",
        .lit "\n\nYukarıdaki projenin Ölçeklenebilirlik Potansiyelini (1–5) değerlendirin. Dikkate alın:\n**Geçmiş Proje Örneği:**\nProje: ",
        .hole "past_project_name",
        .lit "\nÖlçeklenebilirlik ve Tekrarlanabilirlik Potansiyeli: ", .hole "past_project_scalability_data_scope",
        .lit "\n**Geçmiş Değerlendirme (Ölçeklenebilirlik ve Tekrarlanabilirlik Potansiyeli):** ", .hole "past_metric_evaluation",
        .lit "\nPuan: ", .hole "past_metric_score",
        .lit "\n- Ölçek için operasyonel hazırlık\nSadece JSON döndürün: \x7b\"score_1_to_5\": float, \"reason\": str\x7d"] }),
  (("resource_investment", "Projected Timeline"),
    { key := "duration_complexity", name := "Projected Timeline",
      description := "Realism of the estimated duration and schedule.",
      template := [
        .lit "Proje:\n", .hole "project_text",
        .lit "\n\nYukarıdaki projenin Tahmini Zaman Çizelgesi gerçekçiliğini (1–5) değerlendirin. Dikkate alın:\n- Tahmini süre vs kapsam ve kısıtlar\n- Milestone\x27lar / kritik yol netliği\n- Dış bağımlılıklar ve sıralama\n**Geçmiş Proje Örneği:**\nProje: ",
        .hole "past_project_name",
        .lit "\nTahmini Zaman Çizelgesi: ", .hole "past_project_data_scope",
        .lit "\n**Geçmiş Değerlendirme (Tahmini Zaman Çizelgesi):** ", .hole "past_metric_evaluation",
        .lit "\nPuan: ", .hole "past_metric_score",
        .lit "\nSadece JSON döndürün: \x7b\"score_1_to_5\": float, \"reason\": str\x7d"] }),
  (("resource_investment", "Estimated Person-Day Effort"),
    { key := "team_footprint", name := "Team Footprint",
      description := "Size/skills needed for delivery.",
      template := [
        .lit "Proje:\n", .hole "project_text",
        .lit "\n\nYukarıdaki projenin Ekip Ayak İzini (1–5) değerlendirin. Dikkate alın:\n- Gerekli roller ve kıdem seviyeleri\n- Fonksiyonlar arası çaba yoğunluğu\nMevcut durum: ",
        .hole "current_stuff",
        .lit "\nSadece JSON döndürün: \x7b\"score_1_to_5\": float, \"reason\": str\x7d"] }),
  (("execution_risk", "External Resource Dependency"),
    { key := "external_dependence", name := "External Dependence",
      description := "Reliance on vendors/external inputs.",
      template := [
        .lit "Proje:\n", .hole "project_text",
        .lit "\n\nYukarıdaki projenin Dış Bağımlılığını (1–5) değerlendirin. Dikkate alın:\n- Tedarikçi bağımlılığı ve kısıtlar\n- Dış engeller ve riskler\n**Geçmiş Proje Örneği:**\nProje: ",
        .hole "past_project_name",
        .lit "\nVeri Kapsamı: ", .hole "past_project_data_scope",
        .lit "\nPaydaşlar: ", .hole "past_project_stakeholders",
        .lit "\n**Geçmiş Değerlendirme (Dış Kaynak Bağımlılığı):** ", .hole "past_metric_evaluation",
        .lit "\nPuan: ", .hole "past_metric_score",
        .lit "\nSadece JSON döndürün: \x7b\"score_1_to_5\": float, \"reason\": str\x7d"] }),
  (("execution_risk", "Scope Definition Risk"),
    { key := "scope_definition", name := "Scope Definition",
      description := "Clarity of scope, goals, and acceptance.",
      template := [
        .lit "Proje:\n", .hole "project_text",
        .lit "\n\nYukarıdaki projenin Kapsam Tanımını (1–5) değerlendirin. Dikkate alın:\n- Net kapsam ve başarı kriterleri\n- Kesin problem tanımı\n**Geçmiş Proje Örneği:**\nProje: ",
        .hole "past_project_name",
        .lit "\nVeri Kapsamı: ", .hole "past_project_data_scope",
        .lit "\nKapsam ve Hedefler: ", .hole "past_project_scope_and_objectives",
        .lit "\n**Geçmiş Değerlendirme (Kapsam Tanımı):** ", .hole "past_metric_evaluation",
        .lit "\nPuan: ", .hole "past_metric_score",
        .lit "\nSadece JSON döndürün: \x7b\"score_1_to_5\": float, \"reason\": str\x7d"] }),
  (("execution_risk", "Critical Talent Dependency"),
    { key := "critical_talent", name := "Critical Talent",
      description := "Availability of key skills/ownership.",
      template := [
        .lit "Proje:\n", .hole "project_text",
        .lit "\n\nYukarıdaki projenin Kritik Yetenek Bağımlılığını (1–5) değerlendirin. Dikkate alın:\n- Nadir yetenekler ve darboğazlar\n- Sahiplik netliği\nMevcut Durum: ",
        .hole "current_stuff",
        .lit "\n**Geçmiş Proje Örneği:**\nProje: ", .hole "past_project_name",
        .lit "\nKapsam ve Hedefler: ", .hole "past_project_scope_and_objectives",
        .lit "\n**Geçmiş Değerlendirme (Kritik Yetenek):** ", .hole "past_metric_evaluation",
        .lit "\nPuan: ", .hole "past_metric_score",
        .lit "\nSadece JSON döndürün: \x7b\"score_1_to_5\": float, \"reason\": str\x7d"] }),
  (("execution_risk", "Solution Complexity & Innovation Risk"),
    { key := "innovation_complexity", name := "Innovation Complexity",
      description := "Novelty/uncertainty of approach.",
      template := [
        .lit "Proje:\n", .hole "project_text",
        .lit "\n\nYukarıdaki projenin İnovasyon Karmaşıklığını (1–5) değerlendirin. Dikkate alın:\n- Teknik bilinmeyenler/Ar-Ge ihtiyaçları\n- Uygulanabilirlik belirsizliği\n**Geçmiş Proje Örneği:**\nProje: ",
        .hole "past_project_name",
        .lit "\nKapsam ve Hedefler: ", .hole "past_project_scope_and_objectives",
        .lit "\n**Geçmiş Değerlendirme (İnovasyon Karmaşıklığı):** ", .hole "past_metric_evaluation",
        .lit "\nPuan: ", .hole "past_metric_score",
        .lit "\nSadece JSON döndürün: \x7b\"score_1_to_5\": float, \"reason\": str\x7d"] }),
  (("execution_risk", "Implementation Failure Risk"),
    { key := "implementation_failure", name := "Implementation Failure",
      description := "Likelihood of delivery/adoption failure.",
      template := [
        .lit "Proje:\n", .hole "project_text",
        .lit "\n\nYukarıdaki projenin Uygulama Başarısızlığı riskini (1–5) değerlendirin. Dikkate alın:\n- Uygulama boşlukları ve değişim riskleri\n- Benimsenme ve yaygınlaştırma engelleri\n**Geçmiş Proje Örneği:**\nProje: ",
        .hole "past_project_name",
        .lit "\nKapsam ve Hedefler: ", .hole "past_project_scope_and_objectives",
        .lit "\n**Geçmiş Değerlendirme (Uygulama Başarısızlığı):** ", .hole "past_metric_evaluation",
        .lit "\nPuan: ", .hole "past_metric_score",
        .lit "\nSadece JSON döndürün: \x7b\"score_1_to_5\": float, \"reason\": str\x7d"] })]

/-- `SUBMETRIC_PROMPTS.get((metric, key))`. -/
def lookupPrompt (metric key : String) : Option SubmetricPrompt :=
  (SUBMETRIC_PROMPTS.find? (fun e => e.1.1 == metric && e.1.2 == key)).map (fun e => e.2)

/-- The catalog prompts whose metric matches, with their labels, in
declaration order (the iteration in evaluators.py:245-249). -/
def promptsFor (metric : String) : List (String × SubmetricPrompt) :=
  (SUBMETRIC_PROMPTS.filter (fun e => e.1.1 == metric)).map (fun e => (e.1.2, e.2))

/-- Python `str.title()` on the ASCII keys it is applied to. -/
def titleChars : Bool → List Char → List Char
  | _, [] => []
  | prevAlpha, c :: cs =>
    (if c.isAlpha then (if prevAlpha then c.toLower else c.toUpper) else c) :: titleChars c.isAlpha cs

/-- The synthesized placeholder prompt for a submetric key absent from
the catalog (evaluators.py:213-218). -/
def placeholderPrompt (key : String) : SubmetricPrompt :=
  { key := key
    name := String.mk (titleChars false (key.data.map (fun c => if c = '_' then ' ' else c)))
    description := "Auto placeholder"
    template := [
      .lit "Project:\n", .hole "project_text",
      .lit "\n\nReturn JSON only: \x7b\"score_1_to_5\": 3.0, \"reason\": \"placeholder\"\x7d"] }

/-- `_index_by_project_name` (evaluators.py:79): normalize a corpus to a
mapping from project name to record, accepting a single record with a
`project_name` field, a list of such records (later duplicates
overwrite), or an already-keyed mapping (non-record values dropped). -/
def _index_by_project_name (obj : PyVal) : List (PyVal × PyVal) :=
  match obj with
  | .vDict kvs =>
    if (pyLookup kvs (.vStr "project_name")).isSome then
      [((pyLookup kvs (.vStr "project_name")).getD (.vStr ""), obj)]
    else kvs.filter (fun kv => match kv.2 with | .vDict _ => true | _ => false)
  | .vList items =>
    items.foldl (fun out item =>
      match item with
      | .vDict kvs =>
        match pyLookup kvs (.vStr "project_name") with
        | some k => dictSet out k item
        | none => out
      | _ => out) []
  | _ => []

/-- `resp.get(k)` on the normalized reply record inside `_score_one`;
the receiver is a dict on every path, so the non-dict case (which would
be an `AttributeError` in Python) is unreachable and modelled as `None`. -/
def respGet (resp : PyVal) (k : String) : PyVal :=
  match resp with
  | .vDict kvs => (pyLookup kvs (.vStr k)).getD .vNone
  | _ => .vNone

/-- `_build_prompt_kwargs` (evaluators.py:93): resolve the historical
placeholder values for one submetric from the three corpora, using the
first project of the evaluations corpus as the exemplar.  Python `.get`
on a non-record intermediate raises `AttributeError`, modelled by the
`Except` error path. -/
def _build_prompt_kwargs (project_name : PyVal) (submetric_label : PyVal)
    (evaulations prf_answers staff_info : PyVal) :
    Except String (List (String × PyVal)) := do
  let _ := project_name
  let eva_by := _index_by_project_name evaulations
  let prf_by := _index_by_project_name prf_answers
  let staff : PyVal :=
    match staff_info with
    | .vDict _ => staff_info
    | _ => .vDict [(.vStr "raw", staff_info)]
  let eva : PyVal ←
    match eva_by with
    | [] => pure (.vDict [])
    | (_, v) :: _ => pyGetD v (.vStr "metrics") (.vDict [])
  let metric_entry : PyVal := pyOr (← pyGet eva submetric_label) (.vDict [])
  let past_metric_evaluation ← pyGetD metric_entry (.vStr "evaluation") (.vStr "")
  let past_metric_score ← pyGetD metric_entry (.vStr "score") (.vStr "")
  let prf : PyVal :=
    match prf_by with
    | [] => .vDict []
    | (_, v) :: _ => v
  let past_project_company := pyOr (← pyGet prf (.vStr "company")) (pyOr (← pyGet prf (.vStr "business_unit")) (.vStr ""))
  let past_project_scope_and_objectives :=
    pyOr (← pyGet prf (.vStr "Project Scope & Objectives"))
      (pyOr (← pyGet prf (.vStr "scope")) (pyOr (← pyGet prf (.vStr "objectives")) (.vStr "")))
  let bvcEntry ← pyGetD eva (.vStr "Business Value Contribution") (.vDict [])
  let past_project_business_value_contribution ← pyGetD bvcEntry (.vStr "evaluation") (.vStr "")
  let scalEntry ← pyGetD eva (.vStr "Scalability & Replicability Potential") (.vDict [])
  let past_project_scalability_data_scope ← pyGetD scalEntry (.vStr "evaluation") (.vStr "")
  let past_project_data_scope := pyOr (← pyGet prf (.vStr "data_scope")) (pyOr (← pyGet prf (.vStr "data_sources")) (.vStr ""))
  let past_project_stakeholders := pyOr (← pyGet prf (.vStr "Project Stakeholders & Sponsorship")) (pyOr (← pyGet prf (.vStr "team")) (.vStr ""))
  let current_stuff := pyOr (← pyGet staff (.vStr "current_stuff")) (pyOr (← pyGet staff (.vStr "staff")) staff)
  let example_project_name : PyVal :=
    match eva_by with
    | [] => .vStr "Example Project"
    | (k, _) :: _ => k
  pure [
    ("past_project_name", example_project_name),
    ("past_project_company", past_project_company),
    ("past_project_scope_and_objectives", past_project_scope_and_objectives),
    ("past_project_business_value_contribution", past_project_business_value_contribution),
    ("past_project_scalability_data_scope", past_project_scalability_data_scope),
    ("past_project_data_scope", past_project_data_scope),
    ("past_project_stakeholders", past_project_stakeholders),
    ("past_metric_evaluation", past_metric_evaluation),
    ("past_metric_score", past_metric_score),
    ("current_stuff", current_stuff)]

/-- One submetric result (the dict built at evaluators.py:200-205). -/
structure SubRes where
  key : String
  name : String
  score : ℚ
  reason : String
deriving DecidableEq

/-- One metric result (the dict built at evaluators.py:228/274). -/
structure MetricResult where
  metric : String
  overall_score : ℚ
  band : String
  overall_reason : String
  submetrics : List SubRes
deriving DecidableEq

/-- The placeholder-variable step inside `_score_one`
(evaluators.py:163-171): kwargs are resolved only when a project name
and at least one corpus were supplied (Python `None` arguments embed as
`vNone`). -/
def scoreOneKwargs (prompt : SubmetricPrompt) (project_name evaulations prf_answers staff_info submetric_label : PyVal) :
    Except String (List (String × PyVal)) :=
  if !project_name.isNone && (!evaulations.isNone || !prf_answers.isNone || !staff_info.isNone) then
    _build_prompt_kwargs project_name (pyOr submetric_label (.vStr prompt.name))
      (pyOr evaulations (.vDict [])) (pyOr prf_answers (.vDict [])) (pyOr staff_info (.vDict []))
  else pure []

/-- The defaulted reply record built when the backend raises
(evaluators.py:188). -/
def errorResp (e : String) : PyVal :=
  .vDict [(.vStr "score_1_to_5", .vNum 3),
          (.vStr "reason", .vStr ("LLM error: " ++ e ++ "; defaulted to 3.0."))]

/-- The reason-defaulting step of `_score_one` (evaluators.py:190-192):
take the reply's reason if it is a non-blank string, else the fixed
default. -/
def reasonOf (resp : PyVal) : String :=
  match respGet resp "reason" with
  | .vStr r => if pyStrip r = "" then "No reason; defaulted." else r
  | _ => "No reason; defaulted."

/-- The backend-and-normalize step of `_score_one`
(evaluators.py:184-205): a throwing backend is absorbed into a defaulted
reply record; the reply then has its score coerced and its reason
defaulted/stripped. -/
def respOf (llm : String → Except String PyVal) (rendered : String) : PyVal :=
  match llm rendered with
  | .ok raw => _normalize_llm_response raw
  | .error e => errorResp e

/-- The record assembled at evaluators.py:200-205. -/
def scoreOnePost (llm : String → Except String PyVal) (prompt : SubmetricPrompt) (rendered : String) : SubRes :=
  { key := prompt.key, name := prompt.name,
    score := _coerce_score (respGet (respOf llm rendered) "score_1_to_5"),
    reason := pyStrip (reasonOf (respOf llm rendered)) }

/-- `_score_one` (evaluators.py:153): resolve placeholder variables,
render the prompt (the only two steps that can raise), then run the
backend and normalize defensively. -/
def _score_one (llm : String → Except String PyVal) (prompt : SubmetricPrompt)
    (project_text : String) (project_name evaulations prf_answers staff_info submetric_label : PyVal) :
    Except String SubRes :=
  match scoreOneKwargs prompt project_name evaulations prf_answers staff_info submetric_label with
  | .error e => .error e
  | .ok kwargs =>
    match prompt.render project_text kwargs with
    | .error e => .error e
    | .ok rendered => .ok (scoreOnePost llm prompt rendered)

/-- Sequencing of the per-submetric evaluations.  `asyncio.gather`
dispatches them concurrently and reassembles results in list order;
with default settings a raised exception propagates out of the gather.
The sequential model returns the first error in list order — no theorem
below depends on which submetric's error surfaces, only on whether one
does. -/
def mapME {α β : Type} (f : α → Except String β) : List α → Except String (List β)
  | [] => .ok []
  | a :: l =>
    match f a with
    | .error e => .error e
    | .ok b =>
      match mapME f l with
      | .error e => .error e
      | .ok bs => .ok (b :: bs)

/-- The aggregation tail shared by `evaluate` and `evaluate_with_sources`
(evaluators.py:221-234 and 269-280): mean score rounded to 2 decimals
(3.0 when empty), band, first two reasons joined and truncated to 240
characters (fixed fallback when the join is empty).  The source filters
reasons to strings first; every embedded `SubRes.reason` is a string, so
that filter is the identity here. -/
def aggregate (metric_id : String) (sub_results : List SubRes) : MetricResult :=
  let overall := round2 (if sub_results.isEmpty then 3 else (sub_results.map SubRes.score).sum / (sub_results.length : ℚ))
  let reasons := sub_results.map SubRes.reason
  let joined := joinSp ((reasons.take 2).map pyStrip)
  let overall_reason := if joined = "" then "Balanced across submetrics." else joined
  { metric := metric_id, overall_score := overall, band := _band overall,
    overall_reason := pySlice 240 overall_reason, submetrics := sub_results }

/-- Evaluator state: metric id and configured submetric keys
(evaluators.py:39-42; the backend client is passed per call). -/
structure Evaluator where
  metric_id : String
  submetric_keys : List String

/-- The prompt-resolution step of `Evaluator.evaluate`
(evaluators.py:207-219): the secondary path looks each configured key up
in the catalog, synthesizing a placeholder prompt when absent, and
scores with no historical context. -/
def evaluatePrompts (ev : Evaluator) : List (String × SubmetricPrompt) :=
  ev.submetric_keys.map (fun key =>
    (key, match lookupPrompt ev.metric_id key with
          | some p => p
          | none => placeholderPrompt key))

/-- Collect the gathered submetric results into the metric result, or
propagate the error of the gather. -/
def bindAgg (metric_id : String) (x : Except String (List SubRes)) : Except String MetricResult :=
  match x with
  | .error e => .error e
  | .ok sub_results => .ok (aggregate metric_id sub_results)

/-- `Evaluator.evaluate` continued: gather and aggregate. -/
def Evaluator.evaluate (ev : Evaluator) (llm : String → Except String PyVal)
    (project_text : String) : Except String MetricResult :=
  bindAgg ev.metric_id
    (mapME (fun p => _score_one llm p.2 project_text .vNone .vNone .vNone .vNone .vNone) (evaluatePrompts ev))

/-- `Evaluator.evaluate_with_sources` (evaluators.py:236): the primary
path — iterate the catalog prompts of the metric in declaration order,
score each with historical context, and aggregate; falls back to
`evaluate` when the catalog has no prompts for the metric. -/
def Evaluator.evaluate_with_sources (ev : Evaluator) (llm : String → Except String PyVal)
    (project_name project_text : String) (evaulations prf_answers staff_info : PyVal) :
    Except String MetricResult :=
  if (promptsFor ev.metric_id).isEmpty then ev.evaluate llm project_text
  else
    bindAgg ev.metric_id
      (mapME (fun lp =>
        _score_one llm lp.2 project_text (.vStr project_name) evaulations prf_answers staff_info (.vStr lp.1))
        (promptsFor ev.metric_id))

/-- `ImpactEvaluator` (evaluators.py:283). -/
def ImpactEvaluator : Evaluator :=
  ⟨"business_impact", ["Strategic Fit", "Business Value Contribution", "Scalability & Replicability Potential"]⟩

/-- `EffortEvaluator` (evaluators.py:296). -/
def EffortEvaluator : Evaluator :=
  ⟨"resource_investment", ["Projected Timeline", "Estimated Person-Day Effort", "External Resource Dependency"]⟩

/-- `RiskEvaluator` (evaluators.py:309). -/
def RiskEvaluator : Evaluator :=
  ⟨"execution_risk", ["Scope Definition Risk", "Critical Talent Dependency", "Solution Complexity & Innovation Risk", "Implementation Failure Risk"]⟩

/-- The kwargs-plus-render stage of `_score_one` — everything before the
backend call. -/
def scoreOnePre (prompt : SubmetricPrompt) (project_text : String)
    (project_name evaulations prf_answers staff_info submetric_label : PyVal) :
    Except String String :=
  match scoreOneKwargs prompt project_name evaulations prf_answers staff_info submetric_label with
  | .error e => .error e
  | .ok kwargs => prompt.render project_text kwargs

/-- The pre-backend stage of the `i`-th submetric evaluation of
`evaluate_with_sources` for a metric. -/
def subPre (project_name project_text : String) (e p s : PyVal)
    (lp : String × SubmetricPrompt) : Except String String :=
  scoreOnePre lp.2 project_text (.vStr project_name) e p s (.vStr lp.1)

section Lemmas

open List

theorem dropWhile_eq_self_of_head {p : Char → Bool} {l : List Char}
    (h : ∀ c t, l = c :: t → p c = false) : l.dropWhile p = l := by
  cases l with
  | nil => rfl
  | cons c t => simp [List.dropWhile_cons, h c t rfl]

theorem mem_dropWhile_self {p : Char → Bool} {c : Char} :
    ∀ {l : List Char}, c ∈ l → p c = false → c ∈ l.dropWhile p := by
  intro l
  induction l with
  | nil => intro h; cases h
  | cons a t ih =>
    intro hm hc
    by_cases ha : p a
    · simp only [List.dropWhile_cons, ha, if_true]
      rcases List.mem_cons.mp hm with rfl | hm2
      · rw [hc] at ha; cases ha
      · exact ih hm2 hc
    · simpa [List.dropWhile_cons, ha] using hm

theorem stripEnds_ne_nil {p : Char → Bool} {l : List Char} {c : Char}
    (hm : c ∈ l) (hc : p c = false) : stripEnds p l ≠ [] := by
  unfold stripEnds
  intro hnil
  rw [List.rdropWhile_eq_nil_iff] at hnil
  have := hnil c (mem_dropWhile_self hm hc)
  rw [hc] at this
  cases this

theorem stripEnds_idem (p : Char → Bool) (l : List Char) :
    stripEnds p (stripEnds p l) = stripEnds p l := by
  unfold stripEnds
  have h1 : (((l.dropWhile p).rdropWhile p).dropWhile p) = (l.dropWhile p).rdropWhile p := by
    rw [List.dropWhile_eq_self_iff]
    intro hl
    obtain ⟨t, ht⟩ := (List.rdropWhile_prefix p (l := l.dropWhile p))
    have hd : (l.dropWhile p).dropWhile p = l.dropWhile p := List.dropWhile_idempotent _ _
    rw [List.dropWhile_eq_self_iff] at hd
    have hl2 : 0 < ((l.dropWhile p).rdropWhile p ++ t).length := by
      simp only [List.length_append]
      omega
    have h0 : ((l.dropWhile p).rdropWhile p ++ t).get ⟨0, hl2⟩ = ((l.dropWhile p).rdropWhile p).get ⟨0, hl⟩ :=
      List.get_append 0 hl
    have h1 := List.get_of_eq ht ⟨0, hl2⟩
    rw [h0] at h1
    rw [h1]
    exact hd _
  rw [h1]
  exact List.rdropWhile_idempotent _ _

theorem stripEnds_eq_self {p : Char → Bool} {l : List Char}
    (h1 : ∀ c t, l = c :: t → p c = false)
    (h2 : ∀ hl : l ≠ [], p (l.getLast hl) = false) :
    stripEnds p l = l := by
  unfold stripEnds
  rw [dropWhile_eq_self_of_head h1]
  rw [List.rdropWhile_eq_self_iff]
  intro hl
  simpa using h2 hl

theorem pyStrip_idem (s : String) : pyStrip (pyStrip s) = pyStrip s := by
  unfold pyStrip
  rw [stripEnds_idem]

theorem pyStrip_mk (l : List Char) : pyStrip (String.mk l) = String.mk (stripEnds pyWsChar l) := rfl

theorem string_mk_ne_empty {l : List Char} (h : l ≠ []) : String.mk l ≠ "" := by
  intro hc
  apply h
  have : (String.mk l).data = ("" : String).data := by rw [hc]
  simpa using this

theorem pyStrip_ne_empty {s : String} {c : Char} (hm : c ∈ s.data) (hc : pyWsChar c = false) :
    pyStrip s ≠ "" := by
  unfold pyStrip
  exact string_mk_ne_empty (stripEnds_ne_nil hm hc)

theorem pySlice_length (n : Nat) (s : String) : (pySlice n s).length ≤ n := by
  show (s.data.take n).length ≤ n
  simp

theorem except_isOk_map {α β : Type} (f : α → β) (x : Except String α) :
    (x.map f).isOk = x.isOk := by
  cases x <;> rfl

theorem except_isOk_ok {α : Type} (b : α) : (Except.ok b : Except String α).isOk = true := rfl

theorem except_isOk_error {α : Type} (e : String) : (Except.error e : Except String α).isOk = false := rfl

theorem except_isOk_exists {α : Type} {x : Except String α} (h : x.isOk = true) :
    ∃ b, x = .ok b := by
  cases x with
  | ok b => exact ⟨b, rfl⟩
  | error e => cases h

theorem mapME_isOk {α β : Type} (f : α → Except String β) (l : List α) :
    (mapME f l).isOk = l.all (fun a => (f a).isOk) := by
  induction l with
  | nil => rfl
  | cons a l ih =>
    simp only [mapME, List.all_cons]
    cases h : f a with
    | error e => simp [except_isOk_error]
    | ok b =>
      cases h2 : mapME f l with
      | error e =>
        rw [h2] at ih
        simp [except_isOk_error, except_isOk_ok, ← ih]
      | ok bs =>
        rw [h2] at ih
        simp [except_isOk_ok, ← ih]

theorem mapME_ok_of {α β : Type} (f : α → Except String β) (g : α → β) :
    ∀ (l : List α), (∀ a ∈ l, f a = .ok (g a)) → mapME f l = .ok (l.map g) := by
  intro l
  induction l with
  | nil => intro _; rfl
  | cons a t ih =>
    intro h
    simp only [mapME, h a (List.mem_cons_self a t), ih (fun x hx => h x (List.mem_cons_of_mem a hx)), List.map_cons]

theorem mapME_mem {α β : Type} (f : α → Except String β) :
    ∀ (l : List α) (bs : List β), mapME f l = .ok bs → ∀ b ∈ bs, ∃ a ∈ l, f a = .ok b := by
  intro l
  induction l with
  | nil =>
    intro bs h b hb
    simp only [mapME] at h
    cases h
    cases hb
  | cons a t ih =>
    intro bs h b hb
    simp only [mapME] at h
    cases hfa : f a with
    | error e => rw [hfa] at h; cases h
    | ok b1 =>
      rw [hfa] at h
      cases hrest : mapME f t with
      | error e => rw [hrest] at h; cases h
      | ok bs1 =>
        rw [hrest] at h
        cases h
        rcases List.mem_cons.mp hb with rfl | hb2
        · exact ⟨a, List.mem_cons_self a t, hfa⟩
        · obtain ⟨a2, ha2, hfa2⟩ := ih bs1 hrest b hb2
          exact ⟨a2, List.mem_cons_of_mem a ha2, hfa2⟩

theorem rat_floor_eq_intFloor (q : ℚ) : Rat.floor q = ⌊q⌋ := by
  rw [Rat.floor_def', Rat.floor_def]

theorem round2_three : round2 3 = 3 := by
  with_unfolding_all rfl

theorem round2_bounds {q : ℚ} (h1 : 1 ≤ q) (h2 : q ≤ 5) : 1 ≤ round2 q ∧ round2 q ≤ 5 := by
  unfold round2
  rw [rat_floor_eq_intFloor]
  constructor
  · have h : (100:ℤ) ≤ ⌊q * 100 + 1/2⌋ := by
      rw [Int.le_floor]
      push_cast
      linarith
    have h' : ((100:ℤ):ℚ) ≤ (⌊q * 100 + 1/2⌋ : ℚ) := by exact_mod_cast h
    push_cast at h'
    linarith
  · have h : ⌊q * 100 + 1/2⌋ ≤ (500:ℤ) := by
      rw [Int.floor_le_iff]
      push_cast
      linarith
    have h' : ((⌊q * 100 + 1/2⌋:ℤ) : ℚ) ≤ ((500:ℤ):ℚ) := by exact_mod_cast h
    push_cast at h'
    linarith

theorem noreason_strip : pyStrip "No reason; defaulted." = "No reason; defaulted." := by rfl

theorem noreason_ne : ("No reason; defaulted." : String) ≠ "" := by decide

theorem nondict_strip : pyStrip "Non-dict LLM output; defaulted." = "Non-dict LLM output; defaulted." := by rfl

theorem nondict_ne : ("Non-dict LLM output; defaulted." : String) ≠ "" := by decide

theorem unparseable_strip : pyStrip "Unparseable LLM output; defaulted." = "Unparseable LLM output; defaulted." := by rfl

theorem unparseable_ne : ("Unparseable LLM output; defaulted." : String) ≠ "" := by decide

theorem norm_struct (v : PyVal) :
    ∃ r, normalizeStructured v = mkResult ((extractScoreStruct v).elim 3 round2) r ∧
      pyStrip r = r ∧ r ≠ "" := by
  unfold normalizeStructured extractScoreStruct
  cases hu : unwrapFirst v with
  | vDict kvs =>
    have reasonPart :
        ∃ r, pyStrip (match sGet (cleanKeys kvs) "reason" with
          | some (.vStr rr) => if pyStrip rr = "" then "No reason; defaulted." else rr
          | _ => "No reason; defaulted.") = r ∧ pyStrip r = r ∧ r ≠ "" := by
      cases hr : sGet (cleanKeys kvs) "reason" with
      | none => exact ⟨_, rfl, by rw [noreason_strip, noreason_strip], by rw [noreason_strip]; exact noreason_ne⟩
      | some rv =>
        cases rv with
        | vStr rr =>
          by_cases hrr : pyStrip rr = ""
          · simp only [hrr, if_pos rfl, if_true]
            exact ⟨_, rfl, by rw [noreason_strip, noreason_strip], by rw [noreason_strip]; exact noreason_ne⟩
          · simp only [if_neg hrr]
            exact ⟨pyStrip rr, rfl, pyStrip_idem rr, hrr⟩
        | vNone => exact ⟨_, rfl, by rw [noreason_strip, noreason_strip], by rw [noreason_strip]; exact noreason_ne⟩
        | vBool b => exact ⟨_, rfl, by rw [noreason_strip, noreason_strip], by rw [noreason_strip]; exact noreason_ne⟩
        | vNum q => exact ⟨_, rfl, by rw [noreason_strip, noreason_strip], by rw [noreason_strip]; exact noreason_ne⟩
        | vBytes bs => exact ⟨_, rfl, by rw [noreason_strip, noreason_strip], by rw [noreason_strip]; exact noreason_ne⟩
        | vList xs => exact ⟨_, rfl, by rw [noreason_strip, noreason_strip], by rw [noreason_strip]; exact noreason_ne⟩
        | vDict d => exact ⟨_, rfl, by rw [noreason_strip, noreason_strip], by rw [noreason_strip]; exact noreason_ne⟩
    obtain ⟨r, hr1, hr2, hr3⟩ := reasonPart
    cases hf : pyFloat ((sGet (cleanKeys kvs) "score_1_to_5").getD (PyVal.vNum 3)) with
    | none =>
      refine ⟨r, ?_, hr2, hr3⟩
      simp only [hf, Option.elim_none, round2_three, hr1]
    | some f =>
      by_cases h15 : 1 ≤ f ∧ f ≤ 5
      · refine ⟨r, ?_, hr2, hr3⟩
        simp only [hf, if_pos h15, Option.elim_some, hr1]
      · refine ⟨r, ?_, hr2, hr3⟩
        simp only [hf, if_neg h15, Option.elim_none, round2_three, hr1]
  | vNone =>
    exact ⟨_, rfl, by rw [nondict_strip], nondict_ne⟩
  | vBool b => exact ⟨_, rfl, by rw [nondict_strip], nondict_ne⟩
  | vNum q => exact ⟨_, rfl, by rw [nondict_strip], nondict_ne⟩
  | vStr s => exact ⟨_, rfl, by rw [nondict_strip], nondict_ne⟩
  | vBytes bs => exact ⟨_, rfl, by rw [nondict_strip], nondict_ne⟩
  | vList xs => exact ⟨_, rfl, by rw [nondict_strip], nondict_ne⟩

theorem extractScoreStruct_in_range {v : PyVal} {f : ℚ} (h : extractScoreStruct v = some f) :
    1 ≤ f ∧ f ≤ 5 := by
  unfold extractScoreStruct at h
  cases hu : unwrapFirst v with
  | vDict kvs =>
    rw [hu] at h
    have h' : (match pyFloat ((sGet (cleanKeys kvs) "score_1_to_5").getD (PyVal.vNum 3)) with
      | some g => if 1 ≤ g ∧ g ≤ 5 then some g else none
      | none => none) = some f := h
    cases hf : pyFloat ((sGet (cleanKeys kvs) "score_1_to_5").getD (PyVal.vNum 3)) with
    | none => rw [hf] at h'; cases h'
    | some g =>
      rw [hf] at h'
      have h2 : (if 1 ≤ g ∧ g ≤ 5 then some g else (none : Option ℚ)) = some f := h'
      by_cases h15 : 1 ≤ g ∧ g ≤ 5
      · rw [if_pos h15] at h2
        cases h2
        exact h15
      · rw [if_neg h15] at h2
        cases h2
  | vNone => rw [hu] at h; cases h
  | vBool b => rw [hu] at h; cases h
  | vNum q => rw [hu] at h; cases h
  | vStr s => rw [hu] at h; cases h
  | vBytes bs => rw [hu] at h; cases h
  | vList xs => rw [hu] at h; cases h

theorem extractScore_in_range {v : PyVal} {f : ℚ} (h : extractScore v = some f) :
    1 ≤ f ∧ f ≤ 5 := by
  unfold extractScore at h
  cases v with
  | vBytes bs =>
    simp only at h
    cases hj : jsonParse (utf8DecodeIgnore bs) with
    | none => rw [hj] at h; cases h
    | some w => rw [hj] at h; exact extractScoreStruct_in_range h
  | vStr s =>
    simp only at h
    cases hj : jsonParse s with
    | none => rw [hj] at h; cases h
    | some w => rw [hj] at h; exact extractScoreStruct_in_range h
  | vNone => exact extractScoreStruct_in_range h
  | vBool b => exact extractScoreStruct_in_range h
  | vNum q => exact extractScoreStruct_in_range h
  | vList xs => exact extractScoreStruct_in_range h
  | vDict kvs => exact extractScoreStruct_in_range h

theorem norm_full (resp : PyVal) :
    ∃ r, _normalize_llm_response resp = mkResult ((extractScore resp).elim 3 round2) r ∧
      pyStrip r = r ∧ r ≠ "" := by
  unfold _normalize_llm_response extractScore
  cases resp with
  | vBytes bs =>
    simp only
    cases hj : jsonParse (utf8DecodeIgnore bs) with
    | none =>
      exact ⟨_, rfl, by rw [unparseable_strip], unparseable_ne⟩
    | some w => exact norm_struct w
  | vStr s =>
    simp only
    cases hj : jsonParse s with
    | none => exact ⟨_, rfl, by rw [unparseable_strip], unparseable_ne⟩
    | some w => exact norm_struct w
  | vNone => exact norm_struct _
  | vBool b => exact norm_struct _
  | vNum q => exact norm_struct _
  | vList xs => exact norm_struct _
  | vDict kvs => exact norm_struct _

end Lemmas

/-- Claim C1: `_normalize_llm_response` is total (a Lean function) and,
for every reply — including every malformed shape: undecodable or
non-JSON text, byte input, non-record values, records with a missing,
non-numeric or out-of-range score, quoted field names — it returns the
record `{score_1_to_5, reason}` whose score is 3.0 unless the reply
validly carries a score in `[1.0, 5.0]` (in which case that score is
kept, rounded), and whose reason is a non-blank (stripped, non-empty)
string. -/
theorem spec_C1 (resp : PyVal) :
    ∃ r : String, _normalize_llm_response resp = mkResult ((extractScore resp).elim 3 round2) r ∧
      pyStrip r = r ∧ r ≠ "" ∧
      1 ≤ (extractScore resp).elim 3 round2 ∧ (extractScore resp).elim 3 round2 ≤ 5 := by
  obtain ⟨r, h1, h2, h3⟩ := norm_full resp
  refine ⟨r, h1, h2, h3, ?_, ?_⟩ <;>
  · cases he : extractScore resp with
    | none => simp [Option.elim_none]; try norm_num
    | some f =>
      obtain ⟨hf1, hf2⟩ := extractScore_in_range he
      simp only [Option.elim_some]
      first
        | exact (round2_bounds hf1 hf2).1
        | exact (round2_bounds hf1 hf2).2

section PipelineLemmas

theorem bindAgg_ok {m : String} {x : Except String (List SubRes)} {res : MetricResult}
    (h : bindAgg m x = .ok res) : ∃ subs, x = .ok subs ∧ res = aggregate m subs := by
  unfold bindAgg at h
  cases x with
  | error e => cases h
  | ok subs =>
    refine ⟨subs, rfl, ?_⟩
    injection h with h2
    exact h2.symm

theorem _score_one_ok_shape {llm : String → Except String PyVal} {pr : SubmetricPrompt}
    {text : String} {n e p s lbl : PyVal} {b : SubRes}
    (h : _score_one llm pr text n e p s lbl = .ok b) :
    ∃ rendered, b = scoreOnePost llm pr rendered := by
  unfold _score_one at h
  cases hk : scoreOneKwargs pr n e p s lbl with
  | error er => rw [hk] at h; cases h
  | ok kwargs =>
    rw [hk] at h
    have h' : (match pr.render text kwargs with
      | Except.error e => Except.error e
      | Except.ok rendered => Except.ok (scoreOnePost llm pr rendered)) = Except.ok b := h
    cases hr : pr.render text kwargs with
    | error er => rw [hr] at h'; cases h'
    | ok rendered =>
      rw [hr] at h'
      injection h' with h2
      exact ⟨rendered, h2.symm⟩

theorem evaluate_ok_shape {ev : Evaluator} {llm : String → Except String PyVal}
    {text : String} {res : MetricResult} (h : ev.evaluate llm text = .ok res) :
    ∃ subs, res = aggregate ev.metric_id subs ∧
      ∀ b ∈ subs, ∃ pr rendered, b = scoreOnePost llm pr rendered := by
  unfold Evaluator.evaluate at h
  obtain ⟨subs, hsub, hres⟩ := bindAgg_ok h
  refine ⟨subs, hres, ?_⟩
  intro b hb
  obtain ⟨a, _, hfa⟩ := mapME_mem _ _ subs hsub b hb
  obtain ⟨rendered, hrb⟩ := _score_one_ok_shape hfa
  exact ⟨a.2, rendered, hrb⟩

theorem evalWS_ok_shape {ev : Evaluator} {llm : String → Except String PyVal}
    {name text : String} {e p s : PyVal} {res : MetricResult}
    (h : ev.evaluate_with_sources llm name text e p s = .ok res) :
    ∃ subs, res = aggregate ev.metric_id subs ∧
      ∀ b ∈ subs, ∃ pr rendered, b = scoreOnePost llm pr rendered := by
  unfold Evaluator.evaluate_with_sources at h
  by_cases hp : (promptsFor ev.metric_id).isEmpty
  · rw [if_pos hp] at h
    exact evaluate_ok_shape h
  · rw [if_neg hp] at h
    obtain ⟨subs, hsub, hres⟩ := bindAgg_ok h
    refine ⟨subs, hres, ?_⟩
    intro b hb
    obtain ⟨a, _, hfa⟩ := mapME_mem _ _ subs hsub b hb
    obtain ⟨rendered, hrb⟩ := _score_one_ok_shape hfa
    exact ⟨a.2, rendered, hrb⟩

theorem aggregate_submetrics (m : String) (subs : List SubRes) :
    (aggregate m subs).submetrics = subs := rfl

theorem aggregate_score (m : String) (subs : List SubRes) :
    (aggregate m subs).overall_score =
      round2 (if subs.isEmpty then 3 else ((subs.map SubRes.score).sum / (subs.length : ℚ))) := rfl

theorem reasonOf_prop (resp : PyVal) :
    pyStrip (pyStrip (reasonOf resp)) = pyStrip (reasonOf resp) ∧ pyStrip (reasonOf resp) ≠ "" := by
  unfold reasonOf
  cases hrv : respGet resp "reason" with
  | vStr rr =>
    by_cases hrr : pyStrip rr = ""
    · simp only [if_pos hrr]
      exact ⟨by rw [noreason_strip, noreason_strip], by rw [noreason_strip]; exact noreason_ne⟩
    · simp only [if_neg hrr]
      exact ⟨pyStrip_idem rr, hrr⟩
  | vNone => exact ⟨by rw [noreason_strip, noreason_strip], by rw [noreason_strip]; exact noreason_ne⟩
  | vBool b => exact ⟨by rw [noreason_strip, noreason_strip], by rw [noreason_strip]; exact noreason_ne⟩
  | vNum q => exact ⟨by rw [noreason_strip, noreason_strip], by rw [noreason_strip]; exact noreason_ne⟩
  | vBytes bs => exact ⟨by rw [noreason_strip, noreason_strip], by rw [noreason_strip]; exact noreason_ne⟩
  | vList xs => exact ⟨by rw [noreason_strip, noreason_strip], by rw [noreason_strip]; exact noreason_ne⟩
  | vDict d => exact ⟨by rw [noreason_strip, noreason_strip], by rw [noreason_strip]; exact noreason_ne⟩

theorem scoreOnePost_reason (llm : String → Except String PyVal) (pr : SubmetricPrompt) (rendered : String) :
    pyStrip (scoreOnePost llm pr rendered).reason = (scoreOnePost llm pr rendered).reason ∧
      (scoreOnePost llm pr rendered).reason ≠ "" :=
  reasonOf_prop (respOf llm rendered)

theorem str_append_ne_left {a b : String} (h : a ≠ "") : a ++ b ≠ "" := by
  intro hc
  apply h
  have hd : (a ++ b).data = ([] : List Char) := by rw [hc]
  rw [String.data_append] at hd
  have h2 := List.append_eq_nil.mp hd
  cases a with
  | mk d =>
    cases h2.1
    rfl

theorem joinSp_take2_ne {x : String} {rest : List String} (hx : x ≠ "") :
    joinSp ((x :: rest).take 2) ≠ "" := by
  cases rest with
  | nil => simpa [joinSp]
  | cons y t =>
    show x ++ " " ++ joinSp [y] ≠ ""
    exact str_append_ne_left (str_append_ne_left hx)

end PipelineLemmas

/-- The spec's wording of the overall-reason rule: the first two
non-blank submetric reasons, stripped and joined by a single space,
truncated to 240 characters; a fixed fallback phrase when no submetric
produced a (non-blank) reason. -/
def specOverallReason (rs : List String) : String :=
  let nonblank := rs.filter (fun r => pyStrip r != "")
  pySlice 240 (if nonblank.isEmpty then "Balanced across submetrics."
    else joinSp ((nonblank.take 2).map pyStrip))

theorem specOverallReason_length (rs : List String) : (specOverallReason rs).length ≤ 240 := by
  unfold specOverallReason
  exact pySlice_length _ _

theorem map_id_of_forall {α : Type} {f : α → α} :
    ∀ {l : List α}, (∀ a ∈ l, f a = a) → l.map f = l := by
  intro l
  induction l with
  | nil => intro _; rfl
  | cons a t ih =>
    intro h
    simp only [List.map_cons, h a (List.mem_cons_self a t),
      ih (fun x hx => h x (List.mem_cons_of_mem a hx))]

theorem aggregate_reason_spec (m : String) (subs : List SubRes)
    (hsub : ∀ b ∈ subs, pyStrip b.reason = b.reason ∧ b.reason ≠ "") :
    (aggregate m subs).overall_reason = specOverallReason (subs.map SubRes.reason) := by
  have hrs : ∀ a ∈ subs.map SubRes.reason, pyStrip a = a ∧ a ≠ "" := by
    intro a ha
    obtain ⟨b, hb, hab⟩ := List.mem_map.mp ha
    rw [← hab]
    exact hsub b hb
  unfold aggregate specOverallReason
  simp only
  have hfil : (subs.map SubRes.reason).filter (fun r => pyStrip r != "") = subs.map SubRes.reason := by
    rw [List.filter_eq_self]
    intro a ha
    obtain ⟨h1, h2⟩ := hrs a ha
    simp only [bne_iff_ne, ne_eq]
    rw [h1]
    exact h2
  rw [hfil]
  have hmapstrip : ((subs.map SubRes.reason).take 2).map pyStrip = (subs.map SubRes.reason).take 2 :=
    map_id_of_forall (fun a ha => (hrs a ((List.take_prefix 2 _).subset ha)).1)
  rw [hmapstrip]
  have hiff : (joinSp ((subs.map SubRes.reason).take 2) = "") ↔
      ((subs.map SubRes.reason).isEmpty = true) := by
    cases hsubs : subs with
    | nil => simp [joinSp]
    | cons b t =>
      simp only [List.map_cons, List.isEmpty_cons]
      have hb := hsub b (by rw [hsubs]; exact List.mem_cons_self b t)
      constructor
      · intro hj
        exact absurd hj (joinSp_take2_ne hb.2)
      · intro hc
        cases hc
  rw [if_congr hiff rfl rfl]

/-- Claim C3: for every metric evaluation that completes, the overall
score is the arithmetic mean of the submetric scores rounded to 2
decimals (3.0 when the submetric list is empty), and aggregating the
submetric scores `[4.0, 2.0, 3.0]` yields exactly 3.0. -/
theorem spec_C3 :
    (∀ (ev : Evaluator) (llm : String → Except String PyVal) (name text : String)
      (e p s : PyVal) (res : MetricResult),
      ev.evaluate_with_sources llm name text e p s = .ok res →
      res.overall_score = if res.submetrics.isEmpty then (3 : ℚ)
        else round2 ((res.submetrics.map SubRes.score).sum / (res.submetrics.length : ℚ))) ∧
    (aggregate "business_impact"
      [⟨"a", "A", 4, "r1"⟩, ⟨"b", "B", 2, "r2"⟩, ⟨"c", "C", 3, "r3"⟩]).overall_score = 3 := by
  constructor
  · intro ev llm name text e p s res h
    obtain ⟨subs, hres, _⟩ := evalWS_ok_shape h
    rw [hres, aggregate_submetrics, aggregate_score]
    by_cases hemp : subs.isEmpty
    · rw [if_pos hemp, if_pos hemp, round2_three]
    · rw [if_neg hemp, if_neg hemp]
  · with_unfolding_all rfl

/-- Claim C5: for every metric evaluation that completes, the overall
reason equals the first two non-blank submetric reasons (stripped)
joined by a single space and truncated to 240 characters — the fixed
fallback phrase when no submetric produced a reason — and its length
never exceeds 240 characters. -/
theorem spec_C5 (ev : Evaluator) (llm : String → Except String PyVal) (name text : String)
    (e p s : PyVal) (res : MetricResult)
    (h : ev.evaluate_with_sources llm name text e p s = .ok res) :
    res.overall_reason = specOverallReason (res.submetrics.map SubRes.reason) ∧
      res.overall_reason.length ≤ 240 := by
  obtain ⟨subs, hres, hmem⟩ := evalWS_ok_shape h
  have hsub : ∀ b ∈ subs, pyStrip b.reason = b.reason ∧ b.reason ≠ "" := by
    intro b hb
    obtain ⟨pr, rendered, hrb⟩ := hmem b hb
    rw [hrb]
    exact scoreOnePost_reason llm pr rendered
  constructor
  · rw [hres, aggregate_submetrics]
    exact aggregate_reason_spec ev.metric_id subs hsub
  · rw [hres, aggregate_reason_spec ev.metric_id subs hsub]
    exact specOverallReason_length _

theorem normStruct_valid {kvs : List (PyVal × PyVal)} {q : ℚ} {r : String}
    (h1 : sGet (cleanKeys kvs) "score_1_to_5" = some (.vNum q))
    (h2 : 1 ≤ q) (h3 : q ≤ 5)
    (h4 : sGet (cleanKeys kvs) "reason" = some (.vStr r))
    (h5 : pyStrip r ≠ "") :
    normalizeStructured (.vDict kvs) = mkResult (round2 q) (pyStrip r) := by
  unfold normalizeStructured
  have hu : unwrapFirst (PyVal.vDict kvs) = PyVal.vDict kvs := rfl
  rw [hu]
  simp only [h1, h4, Option.getD_some]
  have hp : pyFloat (PyVal.vNum q) = some q := rfl
  rw [hp]
  simp only [if_pos (And.intro h2 h3), if_neg h5]

theorem unwrap_cons_dict (kvs : List (PyVal × PyVal)) (rest : List PyVal) :
    normalizeStructured (.vList (.vDict kvs :: rest)) = normalizeStructured (.vDict kvs) := rfl

/-- Claim C4: for every well-formed reply — a record whose (cleaned)
score field is numeric in `[1.0, 5.0]` and whose reason field is a
non-blank string, given directly, wrapped in a sequence, or as JSON
text — `_normalize_llm_response` returns exactly that score rounded to
2 decimals and that reason stripped of surrounding whitespace. -/
theorem spec_C4 (kvs : List (PyVal × PyVal)) (q : ℚ) (r : String) (s : String)
    (h1 : sGet (cleanKeys kvs) "score_1_to_5" = some (.vNum q))
    (h2 : 1 ≤ q) (h3 : q ≤ 5)
    (h4 : sGet (cleanKeys kvs) "reason" = some (.vStr r))
    (h5 : pyStrip r ≠ "") :
    _normalize_llm_response (.vDict kvs) = mkResult (round2 q) (pyStrip r) ∧
    _normalize_llm_response (.vList [.vDict kvs]) = mkResult (round2 q) (pyStrip r) ∧
    (jsonParse s = some (.vDict kvs) → _normalize_llm_response (.vStr s) = mkResult (round2 q) (pyStrip r)) := by
  have hstruct := normStruct_valid h1 h2 h3 h4 h5
  refine ⟨hstruct, ?_, ?_⟩
  · exact (unwrap_cons_dict kvs []).trans hstruct
  · intro hparse
    unfold _normalize_llm_response
    simp only [hparse]
    exact hstruct

/-- Claim C2: `_band` is a pure total function with exact boundaries —
`low` exactly below 2.5, `mid` exactly on `[2.5, 3.67)`, `high` exactly
from 3.67 up (the implemented 3.67 boundary, not the 3.77 of the code
comment), and in particular band(2.49) = low, band(2.5) = mid,
band(3.66) = mid, band(3.67) = high. -/
theorem spec_C2 :
    (∀ q : ℚ, (_band q = "low" ↔ q < 5/2) ∧
      (_band q = "mid" ↔ 5/2 ≤ q ∧ q < 367/100) ∧
      (_band q = "high" ↔ 367/100 ≤ q)) ∧
    _band (249/100) = "low" ∧ _band (5/2) = "mid" ∧
    _band (366/100) = "mid" ∧ _band (367/100) = "high" := by
  refine ⟨?_, by with_unfolding_all rfl, by with_unfolding_all rfl,
    by with_unfolding_all rfl, by with_unfolding_all rfl⟩
  intro q
  unfold _band
  by_cases h1 : q < 5/2
  · rw [if_pos h1]
    refine ⟨⟨fun _ => h1, fun _ => rfl⟩, ⟨fun h => absurd h (by decide), fun h => absurd h1 (not_lt.mpr h.1)⟩,
      ⟨fun h => absurd h (by decide), fun h => absurd h1 (not_lt.mpr (le_trans (by norm_num) h))⟩⟩
  · rw [if_neg h1]
    by_cases h2 : q < 367/100
    · rw [if_pos h2]
      refine ⟨⟨fun h => absurd h (by decide), fun h => absurd h h1⟩,
        ⟨fun _ => ⟨not_lt.mp h1, h2⟩, fun _ => rfl⟩,
        ⟨fun h => absurd h (by decide), fun h => absurd h2 (not_lt.mpr h)⟩⟩
    · rw [if_neg h2]
      refine ⟨⟨fun h => absurd h (by decide), fun h => absurd h h1⟩,
        ⟨fun h => absurd h (by decide), fun h => absurd h.2 h2⟩,
        ⟨fun _ => not_lt.mp h2, fun _ => rfl⟩⟩

/-- A backend stand-in whose call always raises. -/
def stubFail : String → Except String PyVal := fun _ => .error "boom"

/-- Empty historical corpus. -/
def emptyDict : PyVal := PyVal.vDict []

/-- The metric result produced by the business-impact evaluator when the
backend raises on every submetric and the corpora are empty. -/
def impactFailRes : MetricResult :=
  { metric := "business_impact", overall_score := 3, band := "mid",
    overall_reason := "LLM error: boom; defaulted to 3.0. LLM error: boom; defaulted to 3.0.",
    submetrics := [
      ⟨"strategic_fit", "Strategic Fit", 3, "LLM error: boom; defaulted to 3.0."⟩,
      ⟨"business_value", "Business Value Contribution", 3, "LLM error: boom; defaulted to 3.0."⟩,
      ⟨"scalability", "Scalability", 3, "LLM error: boom; defaulted to 3.0."⟩] }

theorem impactFail_run :
    ImpactEvaluator.evaluate_with_sources stubFail "P" "T" emptyDict emptyDict emptyDict =
      .ok impactFailRes := by
  with_unfolding_all rfl

/-- Witness for C3: a concrete completed evaluation whose overall score
is the rounded mean of its submetric scores. -/
theorem spec_C3_witness :
    (ImpactEvaluator.evaluate_with_sources stubFail "P" "T" emptyDict emptyDict emptyDict =
      .ok impactFailRes) ∧
    impactFailRes.overall_score = (if impactFailRes.submetrics.isEmpty then (3 : ℚ)
      else round2 ((impactFailRes.submetrics.map SubRes.score).sum /
        (impactFailRes.submetrics.length : ℚ))) :=
  ⟨impactFail_run,
   spec_C3.1 ImpactEvaluator stubFail "P" "T" emptyDict emptyDict emptyDict impactFailRes impactFail_run⟩

/-- Witness for C5: the same concrete evaluation's overall reason obeys
the first-two-reasons rule and the 240-character bound. -/
theorem spec_C5_witness :
    (ImpactEvaluator.evaluate_with_sources stubFail "P" "T" emptyDict emptyDict emptyDict =
      .ok impactFailRes) ∧
    impactFailRes.overall_reason = specOverallReason (impactFailRes.submetrics.map SubRes.reason) ∧
    impactFailRes.overall_reason.length ≤ 240 :=
  ⟨impactFail_run,
   (spec_C5 ImpactEvaluator stubFail "P" "T" emptyDict emptyDict emptyDict impactFailRes impactFail_run).1,
   (spec_C5 ImpactEvaluator stubFail "P" "T" emptyDict emptyDict emptyDict impactFailRes impactFail_run).2⟩

/-- A concrete well-formed reply record with a quoted score key, a
valid score and an untrimmed reason. -/
def c4kvs : List (PyVal × PyVal) :=
  [(.vStr "\x27\"score_1_to_5\"\x27", .vNum (9/2)), (.vStr "reason", .vStr " ok ")]

/-- The same record as JSON text. -/
def c4json : String := "\x7b\"score_1_to_5\": 4.5, \"reason\": \" ok \"\x7d"

/-- Witness for C4: the concrete valid reply keeps its score (4.5,
rounded to itself) and its trimmed reason, in record form and as parsed
JSON text. -/
theorem spec_C4_witness :
    (sGet (cleanKeys c4kvs) "score_1_to_5" = some (.vNum (9/2)) ∧
     (1 : ℚ) ≤ 9/2 ∧ (9/2 : ℚ) ≤ 5 ∧
     sGet (cleanKeys c4kvs) "reason" = some (.vStr " ok ") ∧
     pyStrip " ok " ≠ "") ∧
    _normalize_llm_response (.vDict c4kvs) = mkResult (round2 (9/2)) (pyStrip " ok ") ∧
    (jsonParse c4json = some (.vDict [(.vStr "score_1_to_5", .vNum (9/2)), (.vStr "reason", .vStr " ok ")])) ∧
    _normalize_llm_response (.vStr c4json) = mkResult (round2 (9/2)) (pyStrip " ok ") :=
  ⟨⟨by with_unfolding_all rfl, by norm_num, by norm_num, by with_unfolding_all rfl,
    by with_unfolding_all decide⟩,
   (spec_C4 c4kvs (9/2) " ok " c4json (by with_unfolding_all rfl) (by norm_num) (by norm_num)
     (by with_unfolding_all rfl) (by with_unfolding_all decide)).1,
   by with_unfolding_all rfl,
   (spec_C4 [(.vStr "score_1_to_5", .vNum (9/2)), (.vStr "reason", .vStr " ok ")] (9/2) " ok " c4json
     (by with_unfolding_all rfl) (by norm_num) (by norm_num)
     (by with_unfolding_all rfl) (by with_unfolding_all decide)).2.2
     (by with_unfolding_all rfl)⟩

/-- The non-record shapes that reach the normalizer's reject branch: not
text (text is parsed), not bytes (bytes are decoded), not a dict, and
not a non-empty sequence whose first element is a dict. -/
def nonRecordish (v : PyVal) : Bool :=
  match v with
  | .vNone => true
  | .vBool _ => true
  | .vNum _ => true
  | .vList [] => true
  | .vList (first :: _) =>
    match first with
    | .vDict _ => false
    | _ => true
  | _ => false

/-- Counterexample to C8 as stated: a TWO-element sequence whose first
element is a structured record is also unwrapped — it does not yield the
defaulted non-record result. -/
theorem spec_C8_cex :
    _normalize_llm_response
      (.vList [.vDict [(.vStr "score_1_to_5", .vNum (9/2)), (.vStr "reason", .vStr "ok")], .vDict []]) =
      mkResult (9/2) "ok" ∧
    mkResult (9/2) "ok" ≠ mkResult 3 "Non-dict LLM output; defaulted." := by
  constructor
  · with_unfolding_all rfl
  · intro h
    norm_num [mkResult] at h

/-- Claim C8, amended: the normalizer unwraps any NON-EMPTY sequence
whose FIRST element is a structured record to that first element
(regardless of the sequence's length); every other non-record,
non-text, non-bytes value yields the defaulted non-record result. -/
theorem spec_C8_amended :
    (∀ (kvs : List (PyVal × PyVal)) (rest : List PyVal),
      _normalize_llm_response (.vList (.vDict kvs :: rest)) = normalizeStructured (.vDict kvs)) ∧
    (∀ v : PyVal, nonRecordish v = true →
      _normalize_llm_response v = mkResult 3 "Non-dict LLM output; defaulted.") := by
  constructor
  · intro kvs rest
    exact unwrap_cons_dict kvs rest
  · intro v hv
    cases v with
    | vNone => rfl
    | vBool b => rfl
    | vNum q => rfl
    | vStr s => cases hv
    | vBytes bs => cases hv
    | vDict kvs => cases hv
    | vList xs =>
      cases xs with
      | nil => rfl
      | cons first rest =>
        cases first with
        | vDict kvs => cases hv
        | vNone => rfl
        | vBool b => rfl
        | vNum q => rfl
        | vStr s => rfl
        | vBytes bs => rfl
        | vList ys => rfl

/-- Witness for the amended C8: a two-element sequence whose first
element is NOT a record is rejected with the defaulted result. -/
theorem spec_C8_witness :
    nonRecordish (.vList [.vNum 1, .vDict []]) = true ∧
    _normalize_llm_response (.vList [.vNum 1, .vDict []]) =
      mkResult 3 "Non-dict LLM output; defaulted." :=
  ⟨rfl, spec_C8_amended.2 (.vList [.vNum 1, .vDict []]) rfl⟩

/-- The placeholder variables resolved from three empty corpora. -/
def emptyCorporaKwargs : List (String × PyVal) := [
  ("past_project_name", .vStr "Example Project"),
  ("past_project_company", .vStr ""),
  ("past_project_scope_and_objectives", .vStr ""),
  ("past_project_business_value_contribution", .vStr ""),
  ("past_project_scalability_data_scope", .vStr ""),
  ("past_project_data_scope", .vStr ""),
  ("past_project_stakeholders", .vStr ""),
  ("past_metric_evaluation", .vStr ""),
  ("past_metric_score", .vStr ""),
  ("current_stuff", .vDict [])]

/-- Counterexample to C9 as stated: with all three corpora empty, the
context-resolution step binds the `past_project_name` placeholder to the
fixed label "Example Project", not to the empty string. -/
theorem spec_C9_cex :
    _build_prompt_kwargs (.vStr "P") (.vStr "Strategic Fit") emptyDict emptyDict emptyDict =
      .ok emptyCorporaKwargs ∧
    sGet emptyCorporaKwargs "past_project_name" = some (.vStr "Example Project") ∧
    ("Example Project" : String) ≠ "" := by
  refine ⟨by with_unfolding_all rfl, by with_unfolding_all rfl, by decide⟩

/-- Claim C9, amended: with all three historical corpora empty,
evaluation still completes for each of the three evaluators (no
placeholder is missing, any backend reply included), and every
historical placeholder resolves to the empty string EXCEPT
`past_project_name`, which resolves to the fixed exemplar label
"Example Project" (and `current_stuff`, which resolves to the whole
empty staff mapping). -/
theorem spec_C9_amended :
    (∀ (llm : String → Except String PyVal) (name text : String),
      (ImpactEvaluator.evaluate_with_sources llm name text emptyDict emptyDict emptyDict).isOk = true) ∧
    (∀ (llm : String → Except String PyVal) (name text : String),
      (EffortEvaluator.evaluate_with_sources llm name text emptyDict emptyDict emptyDict).isOk = true) ∧
    (∀ (llm : String → Except String PyVal) (name text : String),
      (RiskEvaluator.evaluate_with_sources llm name text emptyDict emptyDict emptyDict).isOk = true) ∧
    (∀ pn lbl : PyVal,
      _build_prompt_kwargs pn lbl emptyDict emptyDict emptyDict = .ok emptyCorporaKwargs) := by
  refine ⟨?_, ?_, ?_, ?_⟩
  · intro llm name text
    with_unfolding_all rfl
  · intro llm name text
    with_unfolding_all rfl
  · intro llm name text
    with_unfolding_all rfl
  · intro pn lbl
    with_unfolding_all rfl

theorem string_mk_data (s : String) : String.mk s.data = s := by
  cases s
  rfl

theorem _score_one_eq (llm : String → Except String PyVal) (pr : SubmetricPrompt)
    (text : String) (n e p s lbl : PyVal) :
    _score_one llm pr text n e p s lbl =
      (scoreOnePre pr text n e p s lbl).map (scoreOnePost llm pr) := by
  unfold _score_one scoreOnePre
  cases hk : scoreOneKwargs pr n e p s lbl with
  | error er => rfl
  | ok kw =>
    show (match pr.render text kw with
      | Except.error e => Except.error e
      | Except.ok rendered => Except.ok (scoreOnePost llm pr rendered)) =
      (pr.render text kw).map (scoreOnePost llm pr)
    cases pr.render text kw with
    | error er => rfl
    | ok rendered => rfl

theorem coerce_three : _coerce_score (PyVal.vNum 3) = 3 := by
  with_unfolding_all rfl

theorem llmMsg_ne (er : String) : ("LLM error: " ++ er ++ "; defaulted to 3.0.") ≠ "" :=
  str_append_ne_left (str_append_ne_left (by decide))

theorem llmMsg_strip (er : String) :
    pyStrip ("LLM error: " ++ er ++ "; defaulted to 3.0.") =
      "LLM error: " ++ er ++ "; defaulted to 3.0." := by
  unfold pyStrip
  have h1 : ∀ c t, ("LLM error: " ++ er ++ "; defaulted to 3.0.").data = c :: t →
      pyWsChar c = false := by
    have hdata : ("LLM error: " ++ er ++ "; defaulted to 3.0.").data =
        'L' :: ("LM error: ".data ++ er.data ++ "; defaulted to 3.0.".data) := rfl
    intro c t hct
    rw [hdata] at hct
    injection hct with hc _
    rw [← hc]
    decide
  have h2 : ∀ hl : ("LLM error: " ++ er ++ "; defaulted to 3.0.").data ≠ [],
      pyWsChar (("LLM error: " ++ er ++ "; defaulted to 3.0.").data.getLast hl) = false := by
    intro hl
    have h2a : ("LLM error: " ++ er ++ "; defaulted to 3.0.").data.getLast? = some '.' := by
      have hsplit : ("LLM error: " ++ er ++ "; defaulted to 3.0.").data =
          ("LLM error: " ++ er).data ++ "; defaulted to 3.0.".data := rfl
      rw [hsplit, List.getLast?_append_of_ne_nil _ (by decide)]
      rfl
    rw [List.getLast?_eq_getLast _ hl] at h2a
    injection h2a with hc
    rw [hc]
    decide
  rw [stripEnds_eq_self h1 h2, string_mk_data]

theorem reasonOf_errorResp (er : String) :
    reasonOf (errorResp er) = "LLM error: " ++ er ++ "; defaulted to 3.0." := by
  unfold reasonOf
  have hg : respGet (errorResp er) "reason" =
      .vStr ("LLM error: " ++ er ++ "; defaulted to 3.0.") := rfl
  rw [hg]
  show (if pyStrip ("LLM error: " ++ er ++ "; defaulted to 3.0.") = ""
    then "No reason; defaulted." else "LLM error: " ++ er ++ "; defaulted to 3.0.") = _
  rw [if_neg (by rw [llmMsg_strip]; exact llmMsg_ne er)]

theorem scoreOnePost_error (llm : String → Except String PyVal) (pr : SubmetricPrompt)
    {r er : String} (h : llm r = .error er) :
    scoreOnePost llm pr r =
      ⟨pr.key, pr.name, 3, "LLM error: " ++ er ++ "; defaulted to 3.0."⟩ := by
  unfold scoreOnePost
  have hresp : respOf llm r = errorResp er := by
    unfold respOf
    rw [h]
  rw [hresp]
  have hscore : respGet (errorResp er) "score_1_to_5" = PyVal.vNum 3 := rfl
  rw [hscore, coerce_three, reasonOf_errorResp er, llmMsg_strip er]

/-- Claim C6 (amended only in presentation): when every pre-backend
stage (context resolution plus rendering) of a metric's submetrics
succeeds, a backend that raises on some submetric's prompt does not
prevent the others from completing: the evaluation returns a result (no
raise), with one entry per catalog submetric of the metric; any
submetric whose backend call raised carries the defaulted score 3.0 and
the backend-error reason, and every other submetric carries exactly the
value computed from its own backend reply. -/
theorem spec_C6 (ev : Evaluator) (llm : String → Except String PyVal) (name text : String)
    (e p s : PyVal)
    (hne : (promptsFor ev.metric_id).isEmpty = false)
    (hpre : (promptsFor ev.metric_id).all (fun lp => (subPre name text e p s lp).isOk) = true) :
    (ev.evaluate_with_sources llm name text e p s).isOk = true ∧
    ∀ res, ev.evaluate_with_sources llm name text e p s = .ok res →
      (res.submetrics.length = (promptsFor ev.metric_id).length ∧
      (∀ (i : Nat) (lp : String × SubmetricPrompt) (r er : String),
        (promptsFor ev.metric_id)[i]? = some lp →
        subPre name text e p s lp = .ok r → llm r = .error er →
        res.submetrics[i]? = some
          ({ key := lp.2.key, name := lp.2.name, score := 3,
             reason := "LLM error: " ++ er ++ "; defaulted to 3.0." } : SubRes)) ∧
      (∀ (i : Nat) (lp : String × SubmetricPrompt) (r : String) (raw : PyVal),
        (promptsFor ev.metric_id)[i]? = some lp →
        subPre name text e p s lp = .ok r → llm r = .ok raw →
        res.submetrics[i]? = some (scoreOnePost llm lp.2 r))) := by
  have hmap : mapME (fun lp => _score_one llm lp.2 text (.vStr name) e p s (.vStr lp.1))
      (promptsFor ev.metric_id) =
      .ok ((promptsFor ev.metric_id).map
        (fun lp => scoreOnePost llm lp.2 ((subPre name text e p s lp).toOption.getD ""))) := by
    apply mapME_ok_of
    intro lp hlp
    have hok : (subPre name text e p s lp).isOk = true := by
      have hall := List.all_eq_true.mp hpre lp hlp
      simpa using hall
    obtain ⟨r, hr⟩ := except_isOk_exists hok
    have hone : _score_one llm lp.2 text (.vStr name) e p s (.vStr lp.1) =
        .ok (scoreOnePost llm lp.2 r) := by
      rw [_score_one_eq]
      have hr' : scoreOnePre lp.2 text (.vStr name) e p s (.vStr lp.1) = .ok r := hr
      rw [hr']
      rfl
    rw [hone, hr]
    rfl
  have hempty2 : ¬ ((promptsFor ev.metric_id).isEmpty = true) := by
    rw [hne]
    exact Bool.false_ne_true
  constructor
  · unfold Evaluator.evaluate_with_sources
    rw [if_neg hempty2, hmap]
    rfl
  · intro res hres
    unfold Evaluator.evaluate_with_sources at hres
    rw [if_neg hempty2, hmap] at hres
    obtain ⟨subs, hs1, hs2⟩ := bindAgg_ok hres
    injection hs1 with hs1'
    rw [← hs1'] at hs2
    refine ⟨?_, ?_, ?_⟩
    · rw [hs2, aggregate_submetrics, List.length_map]
    · intro i lp r er hip hsp herr
      rw [hs2, aggregate_submetrics, List.getElem?_map, hip]
      simp only [Option.map_some']
      rw [hsp]
      simp only [Except.toOption, Option.getD_some]
      rw [scoreOnePost_error llm lp.2 herr]
    · intro i lp r raw hip hsp hok2
      rw [hs2, aggregate_submetrics, List.getElem?_map, hip]
      simp only [Option.map_some']
      rw [hsp]
      simp only [Except.toOption, Option.getD_some]

/-- Witness for C6: the business-impact evaluation with empty corpora
and an always-raising backend satisfies the hypotheses, completes, and
still contains one result per catalog submetric. -/
theorem spec_C6_witness :
    ((promptsFor ImpactEvaluator.metric_id).isEmpty = false) ∧
    ((promptsFor ImpactEvaluator.metric_id).all
      (fun lp => (subPre "P" "T" emptyDict emptyDict emptyDict lp).isOk) = true) ∧
    (ImpactEvaluator.evaluate_with_sources stubFail "P" "T" emptyDict emptyDict emptyDict).isOk = true ∧
    impactFailRes.submetrics.length = (promptsFor ImpactEvaluator.metric_id).length :=
  ⟨by with_unfolding_all rfl, by with_unfolding_all rfl,
   (spec_C6 ImpactEvaluator stubFail "P" "T" emptyDict emptyDict emptyDict
     (by with_unfolding_all rfl) (by with_unfolding_all rfl)).1,
   ((spec_C6 ImpactEvaluator stubFail "P" "T" emptyDict emptyDict emptyDict
     (by with_unfolding_all rfl) (by with_unfolding_all rfl)).2 impactFailRes impactFail_run).1⟩

theorem bindAgg_isOk (m : String) (x : Except String (List SubRes)) :
    (bindAgg m x).isOk = x.isOk := by
  cases x <;> rfl

theorem all_congr_of_eq {α : Type} {f g : α → Bool} :
    ∀ {l : List α}, (∀ a ∈ l, f a = g a) → l.all f = l.all g := by
  intro l
  induction l with
  | nil => intro _; rfl
  | cons a t ih =>
    intro h
    simp only [List.all_cons, h a (List.mem_cons_self a t),
      ih (fun x hx => h x (List.mem_cons_of_mem a hx))]

/-- Every error produced by template rendering is a `KeyError` (its
message starts with the ten characters "KeyError: "). -/
theorem renderParts_error_key {vars : List (String × PyVal)} :
    ∀ {parts : List TPart} {e : String}, renderParts vars parts = .error e →
      e.data.take 10 = "KeyError: ".data := by
  intro parts
  induction parts with
  | nil => intro e h; cases h
  | cons part rest ih =>
    intro e h
    cases part with
    | lit s =>
      unfold renderParts at h
      cases hr : renderParts vars rest with
      | error e2 =>
        rw [hr] at h
        injection h with h2
        rw [← h2]
        exact ih hr
      | ok t => rw [hr] at h; cases h
    | hole k =>
      unfold renderParts at h
      cases hk : sGet vars k with
      | none =>
        rw [hk] at h
        injection h with h2
        rw [← h2]
        have : ("KeyError: " ++ k).data = "KeyError: ".data ++ k.data := rfl
        rw [this]
        have h10 : (10 : Nat) = ("KeyError: ".data).length := rfl
        rw [h10, List.take_left]
      | some v =>
        rw [hk] at h
        cases hr : renderParts vars rest with
        | error e2 =>
          rw [hr] at h
          injection h with h2
          rw [← h2]
          exact ih hr
        | ok t => rw [hr] at h; cases h

/-- An evaluations corpus whose exemplar record has a non-record
`metrics` field — context resolution raises `AttributeError` on it. -/
def badEva : PyVal := .vDict [(.vStr "P1", .vDict [(.vStr "metrics", .vStr "oops")])]

/-- Counterexample to C7 as stated: with a corpus whose `metrics` field
is a plain string, the evaluation escapes with an `AttributeError` from
context resolution (`_build_prompt_kwargs`), which is not a rendering
failure (rendering failures are exactly the `KeyError: `-prefixed
errors — see `renderParts_error_key`). -/
theorem spec_C7_cex :
    ImpactEvaluator.evaluate_with_sources stubFail "P" "T" badEva emptyDict emptyDict =
      .error "AttributeError: get on non-dict" ∧
    ("AttributeError: get on non-dict").data.take 10 ≠ "KeyError: ".data := by
  refine ⟨by with_unfolding_all rfl, by decide⟩

/-- Claim C7, amended: the failures that can escape a submetric
evaluation are exactly those of its pre-backend stage — context
resolution (`AttributeError` on corpora with non-record fields where
records are expected) and template rendering (`KeyError` for a missing
placeholder).  Backend and normalization failures are absorbed: the
escape condition does not mention the backend at all.  At the metric
level (for a metric with catalog prompts), the evaluation succeeds
exactly when every submetric's pre-backend stage succeeds. -/
theorem spec_C7_amended :
    (∀ (llm : String → Except String PyVal) (pr : SubmetricPrompt) (text : String)
      (n e p s lbl : PyVal) (er : String),
      _score_one llm pr text n e p s lbl = .error er ↔
        scoreOnePre pr text n e p s lbl = .error er) ∧
    (∀ (pr : SubmetricPrompt) (text : String) (n e p s lbl : PyVal) (er : String),
      scoreOnePre pr text n e p s lbl = .error er ↔
        (scoreOneKwargs pr n e p s lbl = .error er ∨
         ∃ kw, scoreOneKwargs pr n e p s lbl = .ok kw ∧ pr.render text kw = .error er)) ∧
    (∀ (ev : Evaluator) (llm : String → Except String PyVal) (name text : String)
      (e p s : PyVal), (promptsFor ev.metric_id).isEmpty = false →
      (ev.evaluate_with_sources llm name text e p s).isOk =
        (promptsFor ev.metric_id).all (fun lp => (subPre name text e p s lp).isOk)) := by
  refine ⟨?_, ?_, ?_⟩
  · intro llm pr text n e p s lbl er
    rw [_score_one_eq]
    cases scoreOnePre pr text n e p s lbl with
    | error e2 =>
      constructor
      · intro h
        injection h with h2
        rw [h2]
      · intro h
        injection h with h2
        rw [h2]
        rfl
    | ok r =>
      constructor
      · intro h; cases h
      · intro h; cases h
  · intro pr text n e p s lbl er
    unfold scoreOnePre
    cases hk : scoreOneKwargs pr n e p s lbl with
    | error e2 =>
      constructor
      · intro h
        injection h with h2
        left
        rw [h2]
      · intro h
        rcases h with h | ⟨kw, hkw, _⟩
        · injection h with h2
          rw [h2]
        · cases hkw
    | ok kw =>
      constructor
      · intro h
        right
        exact ⟨kw, rfl, h⟩
      · intro h
        rcases h with h | ⟨kw2, hkw2, hr2⟩
        · cases h
        · injection hkw2 with h2
          rw [← h2] at hr2
          exact hr2
  · intro ev llm name text e p s hne
    have hempty2 : ¬ ((promptsFor ev.metric_id).isEmpty = true) := by
      rw [hne]
      exact Bool.false_ne_true
    unfold Evaluator.evaluate_with_sources
    rw [if_neg hempty2, bindAgg_isOk, mapME_isOk]
    apply all_congr_of_eq
    intro lp _
    rw [_score_one_eq]
    rw [except_isOk_map]
    rfl

/-- Witness for the amended C7: at the counterexample corpus the
metric-level success equation holds (both sides false). -/
theorem spec_C7_witness :
    ((promptsFor ImpactEvaluator.metric_id).isEmpty = false) ∧
    ((ImpactEvaluator.evaluate_with_sources stubFail "P" "T" badEva emptyDict emptyDict).isOk =
      (promptsFor ImpactEvaluator.metric_id).all
        (fun lp => (subPre "P" "T" badEva emptyDict emptyDict lp).isOk)) :=
  ⟨by with_unfolding_all rfl,
   spec_C7_amended.2.2 ImpactEvaluator stubFail "P" "T" badEva emptyDict emptyDict
     (by with_unfolding_all rfl)⟩

/-- The placeholder check for the secondary (`evaluate`) path: a
template part is renderable there only if it is literal text or the
`project_text` hole, since no other variable is supplied. -/
def holePT : TPart → Bool
  | .hole k => k == "project_text"
  | .lit _ => true

theorem renderPT_isOk (text : String) :
    ∀ (parts : List TPart),
      (renderParts [("project_text", PyVal.vStr text)] parts).isOk = parts.all holePT := by
  intro parts
  induction parts with
  | nil => rfl
  | cons part rest ih =>
    cases part with
    | lit s =>
      unfold renderParts
      rw [except_isOk_map, ih]
      simp [List.all_cons, holePT]
    | hole k =>
      by_cases hk : k = "project_text"
      · subst hk
        have hget : sGet [("project_text", PyVal.vStr text)] "project_text" =
            some (PyVal.vStr text) := rfl
        unfold renderParts
        rw [hget, except_isOk_map, ih]
        simp [List.all_cons, holePT]
      · have hget : sGet [("project_text", PyVal.vStr text)] k = none := by
          unfold sGet
          rw [if_neg (by simp [hk, Ne.symm hk])]
          rfl
        unfold renderParts
        rw [hget]
        simp [List.all_cons, holePT, hk, except_isOk_error]

theorem scoreOne_noctx_isOk (llm : String → Except String PyVal) (pr : SubmetricPrompt)
    (text : String) :
    (_score_one llm pr text .vNone .vNone .vNone .vNone .vNone).isOk =
      pr.template.all holePT := by
  rw [_score_one_eq, except_isOk_map]
  have hpre : scoreOnePre pr text .vNone .vNone .vNone .vNone .vNone = pr.render text [] := rfl
  rw [hpre]
  exact renderPT_isOk text pr.template

theorem evaluate_isOk_eq (ev : Evaluator) (llm : String → Except String PyVal) (text : String) :
    (ev.evaluate llm text).isOk =
      (evaluatePrompts ev).all (fun p2 => p2.2.template.all holePT) := by
  unfold Evaluator.evaluate
  rw [bindAgg_isOk, mapME_isOk]
  apply all_congr_of_eq
  intro a _
  exact scoreOne_noctx_isOk llm a.2 text

/-- Counterexample to C10 as stated: the claim that every configured
submetric key of the three evaluators matches a catalog entry is false —
the effort evaluator's "External Resource Dependency" key has no entry
under `resource_investment` (the catalog files it under
`execution_risk`). -/
theorem spec_C10_cex :
    lookupPrompt "resource_investment" "External Resource Dependency" = none ∧
    "External Resource Dependency" ∈ EffortEvaluator.submetric_keys := by
  refine ⟨by with_unfolding_all rfl, by with_unfolding_all decide⟩

/-- Claim C10, amended: the secondary `evaluate(project_text)` path
fails for every submetric whose key IS in the catalog (every catalog
template references a historical placeholder that this path never
supplies), and only keys absent from the catalog — which receive the
synthesized placeholder template using `project_text` alone — can
succeed.  Every configured key of the impact and risk evaluators
matches a catalog entry; the effort evaluator has the one mismatched
key above, yet the `evaluate` path of all three evaluators still always
raises, because each configured key list contains at least one
catalog-matching key. -/
theorem spec_C10_amended :
    (∀ ent, ent ∈ SUBMETRIC_PROMPTS → ∀ (llm : String → Except String PyVal) (text : String),
      (_score_one llm ent.2 text .vNone .vNone .vNone .vNone .vNone).isOk = false) ∧
    (∀ (key : String) (llm : String → Except String PyVal) (text : String),
      (_score_one llm (placeholderPrompt key) text .vNone .vNone .vNone .vNone .vNone).isOk = true) ∧
    (∀ (llm : String → Except String PyVal) (text : String),
      (ImpactEvaluator.evaluate llm text).isOk = false) ∧
    (∀ (llm : String → Except String PyVal) (text : String),
      (EffortEvaluator.evaluate llm text).isOk = false) ∧
    (∀ (llm : String → Except String PyVal) (text : String),
      (RiskEvaluator.evaluate llm text).isOk = false) ∧
    ImpactEvaluator.submetric_keys.all (fun k => (lookupPrompt "business_impact" k).isSome) = true ∧
    RiskEvaluator.submetric_keys.all (fun k => (lookupPrompt "execution_risk" k).isSome) = true := by
  refine ⟨?_, ?_, ?_, ?_, ?_, ?_, ?_⟩
  · intro ent hent llm text
    rw [scoreOne_noctx_isOk]
    simp only [SUBMETRIC_PROMPTS, List.mem_cons, List.not_mem_nil, or_false] at hent
    rcases hent with rfl | rfl | rfl | rfl | rfl | rfl | rfl | rfl | rfl | rfl <;>
      with_unfolding_all rfl
  · intro key llm text
    rw [scoreOne_noctx_isOk]
    with_unfolding_all rfl
  · intro llm text
    rw [evaluate_isOk_eq]
    with_unfolding_all rfl
  · intro llm text
    rw [evaluate_isOk_eq]
    with_unfolding_all rfl
  · intro llm text
    rw [evaluate_isOk_eq]
    with_unfolding_all rfl
  · with_unfolding_all rfl
  · with_unfolding_all rfl

/-- Witness for the amended C10: the first catalog entry (Strategic
Fit) fails on the secondary path, and a non-catalog key succeeds with
the synthesized placeholder prompt. -/
theorem spec_C10_witness :
    ((SUBMETRIC_PROMPTS.headD (("", ""), placeholderPrompt "x")) ∈ SUBMETRIC_PROMPTS) ∧
    ((_score_one stubFail (SUBMETRIC_PROMPTS.headD (("", ""), placeholderPrompt "x")).2 "T"
      .vNone .vNone .vNone .vNone .vNone).isOk = false) ∧
    ((_score_one stubFail (placeholderPrompt "nonexistent_key") "T"
      .vNone .vNone .vNone .vNone .vNone).isOk = true) :=
  ⟨by unfold SUBMETRIC_PROMPTS; exact List.mem_cons_self _ _,
   spec_C10_amended.1 _ (by unfold SUBMETRIC_PROMPTS; exact List.mem_cons_self _ _) stubFail "T",
   spec_C10_amended.2.1 "nonexistent_key" stubFail "T"⟩

end ProjectEval
